import Mathlib

/-
  Shallow embedding of the acquisition-filter-classify-score pipeline of the
  internal-medicine articles repository (backend/medical_processing).

  Conventions of the embedding:
  - Python JSON values (the results of json.loads) are modelled by `JVal`;
    Python numbers (int and float alike) are modelled by exact rationals.
  - Python dicts are association lists with unique keys; `dictSet` replaces
    the value in place (preserving insertion order) exactly as CPython does.
  - Code that can raise an uncaught exception is modelled with
    `Except PyErr`; code whose exceptions are all absorbed is a total
    function.
  - Calls to the external text-generation service are inputs to the embedded
    functions: an `Except Unit String` that is either the raw response text
    or a call-level failure.
-/

set_option maxRecDepth 4000

namespace MedApp

/-- Python exception kinds that can escape the embedded code paths. -/
inductive PyErr where
  | indexError
  | typeError
  | attributeError
  | keyError
  deriving Repr, DecidableEq

/-- An exact rational carried as an unreduced numerator and denominator
    pair; every construction in this development keeps the denominator
    positive. Python numbers (int and float alike) are modelled by these
    exact values. -/
structure QV where
  n : Int
  d : Int
  deriving Repr, DecidableEq

/-- The rational of an integer. -/
def qv (k : Int) : QV := ⟨k, 1⟩

/-- Exact addition. -/
def qAdd (a b : QV) : QV := ⟨a.n * b.d + b.n * a.d, a.d * b.d⟩

/-- Exact subtraction. -/
def qSub (a b : QV) : QV := ⟨a.n * b.d - b.n * a.d, a.d * b.d⟩

/-- Negation. -/
def qNeg (a : QV) : QV := ⟨-a.n, a.d⟩

/-- Strict order (valid for positive denominators). -/
def qLtB (a b : QV) : Bool := a.n * b.d < b.n * a.d

/-- Non-strict order (valid for positive denominators). -/
def qLeB (a b : QV) : Bool := a.n * b.d ≤ b.n * a.d

/-- Multiplication by a power of ten, keeping the denominator positive. -/
def qMulPow10 (a : QV) (e : Int) : QV :=
  match e with
  | .ofNat k => ⟨a.n * ((10 : Nat) ^ k : Nat), a.d⟩
  | .negSucc k => ⟨a.n, a.d * ((10 : Nat) ^ (k + 1) : Nat)⟩

/-- Exact division, keeping the denominator positive when both inputs
    have positive denominators and the divisor is non-zero. -/
def qDiv (a b : QV) : QV :=
  if b.n < 0 then ⟨-(a.n * b.d), a.d * (-b.n)⟩
  else ⟨a.n * b.d, a.d * b.n⟩

/-- Floor of the value (valid for positive denominators). -/
def qFloor (a : QV) : Int := Int.fdiv a.n a.d

/-- Python max(0, q): q itself when positive, else the int 0. -/
def qMax0 (q : QV) : QV := if qLtB (qv 0) q then q else qv 0

/-- A parsed JSON value, as returned by Python json.loads.
    Numbers (Python int and float alike) are carried as exact rationals. -/
inductive JVal where
  | null
  | bool (b : Bool)
  | num (q : QV)
  | str (s : String)
  | arr (xs : List JVal)
  | obj (kvs : List (String × JVal))
  deriving Repr

/-- Python dicts with string keys, in insertion order. -/
abbrev PyDict := List (String × JVal)

/-- Lookup of a key in a dict (Python d[k] / d.get(k), first binding). -/
def dictGet (d : PyDict) (k : String) : Option JVal :=
  match d with
  | [] => none
  | (k1, v) :: rest => if k1 = k then some v else dictGet rest k

/-- Python d.get(k, dflt). -/
def dictGetD (d : PyDict) (k : String) (dflt : JVal) : JVal :=
  (dictGet d k).getD dflt

/-- Python d[k] = v : replace in place if the key exists, else append. -/
def dictSet (d : PyDict) (k : String) (v : JVal) : PyDict :=
  match d with
  | [] => [(k, v)]
  | (k1, v1) :: rest =>
      if k1 = k then (k1, v) :: rest else (k1, v1) :: dictSet rest k v

/-- Python d.setdefault(k, v). -/
def dictSetdefault (d : PyDict) (k : String) (v : JVal) : PyDict :=
  match dictGet d k with
  | some _ => d
  | none => d ++ [(k, v)]

/-- Python d.update(e) : fold the entries of e into d with dictSet. -/
def dictUpdate (d e : PyDict) : PyDict :=
  match e with
  | [] => d
  | (k, v) :: rest => dictUpdate (dictSet d k v) rest

/-- Python truthiness of a JSON value (a number is truthy when its
    numerator is non-zero). -/
def pyTruthy : JVal → Bool
  | .null => false
  | .bool b => b
  | .num q => q.n ≠ 0
  | .str s => s ≠ ""
  | .arr xs => ¬ xs.isEmpty
  | .obj kvs => ¬ kvs.isEmpty

/-- Python + on JSON values (bool is an int subtype; str and list
    concatenate; anything else raises TypeError). -/
def pyAdd : JVal → JVal → Except PyErr JVal
  | .num a, .num b => .ok (.num (qAdd a b))
  | .num a, .bool b => .ok (.num (qAdd a (qv (if b then 1 else 0))))
  | .bool a, .num b => .ok (.num (qAdd (qv (if a then 1 else 0)) b))
  | .bool a, .bool b =>
      .ok (.num (qAdd (qv (if a then 1 else 0)) (qv (if b then 1 else 0))))
  | .str a, .str b => .ok (.str (a ++ b))
  | .arr a, .arr b => .ok (.arr (a ++ b))
  | _, _ => .error .typeError

/-- Python max(0, v): comparison succeeds only against numbers and bools.
    On a tie max returns its first argument (the int 0). -/
def pyMax0 : JVal → Except PyErr JVal
  | .num q => .ok (.num (qMax0 q))
  | .bool b => .ok (if b then .bool true else .num (qv 0))
  | _ => .error .typeError

/-- Substring test on character lists (Python `needle in haystack`). -/
def subOf (needle hay : List Char) : Bool :=
  match hay with
  | [] => needle.isEmpty
  | _ :: rest => needle.isPrefixOf hay || subOf needle rest

/-- Python `needle in v` for a string needle: key membership for dicts,
    element equality for lists, substring for strings, TypeError otherwise. -/
def pyMemStr (needle : String) : JVal → Except PyErr Bool
  | .obj kvs => .ok (kvs.any (fun kv => kv.1 = needle))
  | .arr xs => .ok (xs.any (fun v => match v with
      | .str s => s = needle
      | _ => false))
  | .str s => .ok (subOf needle.toList s.toList)
  | _ => .error .typeError

/-- Python v[k] for a string key: dict lookup (KeyError when absent),
    TypeError on lists and strings (indices must be integers), and
    TypeError on scalars (not subscriptable). -/
def pySubscriptStr (v : JVal) (k : String) : Except PyErr JVal :=
  match v with
  | .obj kvs =>
      match dictGet kvs k with
      | some x => .ok x
      | none => .error .keyError
  | _ => .error .typeError

/-- Characters Python str.strip() and str.split() treat as whitespace
    (the ASCII ones; the inputs of this pipeline are ASCII). -/
def pyWs (c : Char) : Bool :=
  c = ' ' ∨ c = '\t' ∨ c = '\n' ∨ c = '\r' ∨ c = '\x0b' ∨ c = '\x0c'

/-- Python s.strip(). -/
def pyStripList (cs : List Char) : List Char :=
  ((cs.dropWhile pyWs).reverse.dropWhile pyWs).reverse

/-- Python s.lower() (ASCII case folding; the relevant inputs are ASCII). -/
def pyLower (s : String) : String :=
  String.mk (s.toList.map Char.toLower)

/-- Python s.split(sep, 1): split at the first occurrence of sep only. -/
def splitOnceAt (c : Char) (cs : List Char) : Option (List Char × List Char) :=
  match cs with
  | [] => none
  | a :: rest =>
      if a = c then some ([], rest)
      else match splitOnceAt c rest with
        | some (l, r) => some (a :: l, r)
        | none => none

/-- Python s.rsplit(sep, 1)[0]: everything before the last occurrence of
    sep, or the whole string when sep does not occur. -/
def beforeLast (c : Char) (cs : List Char) : List Char :=
  match splitOnceAt c cs.reverse with
  | some (_, r) => r.reverse
  | none => cs

/-- Python s.rfind(c) as an Int (-1 when absent). -/
def pyRfind (c : Char) (cs : List Char) : Int :=
  match splitOnceAt c cs.reverse with
  | some (l, _) => (cs.length : Int) - 1 - (l.length : Int)
  | none => -1

/-- Python s.count(c). -/
def countChar (c : Char) (cs : List Char) : Nat :=
  cs.countP (fun a => a = c)

/-- Python s.split() with no arguments: tokens separated by runs of
    whitespace, with empties discarded. -/
def pySplitWs (fuel : Nat) (cs : List Char) : List (List Char) :=
  match fuel with
  | 0 => []
  | fuel + 1 =>
      let cs1 := cs.dropWhile pyWs
      match cs1 with
      | [] => []
      | _ =>
          let tok := cs1.takeWhile (fun c => ¬ pyWs c)
          let rest := cs1.dropWhile (fun c => ¬ pyWs c)
          tok :: pySplitWs fuel rest

/-- Python s.replace(a, b) for single characters. -/
def replaceChar (a b : Char) (cs : List Char) : List Char :=
  cs.map (fun c => if c = a then b else c)

/-- Python s.startswith(pat), on character lists. -/
def startsWithList (pat cs : List Char) : Bool :=
  pat.isPrefixOf cs

/-- Python s.endswith(pat), on character lists. -/
def endsWithList (pat cs : List Char) : Bool :=
  pat.reverse.isPrefixOf cs.reverse

/-- Split at every occurrence of a separator, keeping empty pieces
    (Python s.split(sep) and str.splitOn semantics). -/
def splitAllOn (c : Char) : List Char → List (List Char)
  | [] => [[]]
  | a :: rest =>
      if a = c then [] :: splitAllOn c rest
      else
        match splitAllOn c rest with
        | [] => [[a]]
        | t :: ts => (a :: t) :: ts

/-- Lexicographic code-point comparison of character lists: the order of
    Python str and of SQLite TEXT (memcmp on UTF-8). -/
def listLtChars : List Char → List Char → Bool
  | [], [] => false
  | [], _ :: _ => true
  | _ :: _, [] => false
  | a :: as, b :: bs =>
      if a.toNat < b.toNat then true
      else if b.toNat < a.toNat then false
      else listLtChars as bs

/-
  Model of Python json.loads (the strict default decoder).
  Deviations that no claim exercises: the non-standard NaN and Infinity
  literals are rejected here, and an escaped lone surrogate is mapped to
  the replacement of Char.ofNat rather than kept as a surrogate.
-/

/-- JSON whitespace accepted between tokens by json.loads. -/
def jWs (c : Char) : Bool :=
  c = ' ' ∨ c = '\t' ∨ c = '\n' ∨ c = '\r'

/-- Consume an expected literal such as rue in true. -/
def expectLit (lit cs : List Char) : Option (List Char) :=
  if lit.isPrefixOf cs then some (cs.drop lit.length) else none

/-- Hexadecimal digit value. -/
def hexVal (c : Char) : Option Nat :=
  if '0' ≤ c ∧ c ≤ '9' then some (c.toNat - 48)
  else if 'a' ≤ c ∧ c ≤ 'f' then some (c.toNat - 87)
  else if 'A' ≤ c ∧ c ≤ 'F' then some (c.toNat - 55)
  else none

/-- Decimal digit run folded into a Nat. -/
def digitsToNat (ds : List Char) : Nat :=
  ds.foldl (fun n c => n * 10 + (c.toNat - 48)) 0

/-- Parse a JSON string body after the opening quote. -/
def parseJStr (fuel : Nat) (cs : List Char) (acc : List Char) :
    Option (String × List Char) :=
  match fuel, cs with
  | 0, _ => none
  | _, [] => none
  | fuel + 1, c :: rest =>
      if c = '"' then some (String.mk acc.reverse, rest)
      else if c = '\\' then
        match rest with
        | [] => none
        | e :: rest1 =>
            if e = '"' then parseJStr fuel rest1 ('"' :: acc)
            else if e = '\\' then parseJStr fuel rest1 ('\\' :: acc)
            else if e = '/' then parseJStr fuel rest1 ('/' :: acc)
            else if e = 'b' then parseJStr fuel rest1 ('\x08' :: acc)
            else if e = 'f' then parseJStr fuel rest1 ('\x0c' :: acc)
            else if e = 'n' then parseJStr fuel rest1 ('\n' :: acc)
            else if e = 'r' then parseJStr fuel rest1 ('\r' :: acc)
            else if e = 't' then parseJStr fuel rest1 ('\t' :: acc)
            else if e = 'u' then
              match rest1 with
              | h1 :: h2 :: h3 :: h4 :: rest2 =>
                  match hexVal h1, hexVal h2, hexVal h3, hexVal h4 with
                  | some a, some b, some c1, some d =>
                      parseJStr fuel rest2
                        (Char.ofNat (((a * 16 + b) * 16 + c1) * 16 + d) :: acc)
                  | _, _, _, _ => none
              | _ => none
            else none
      else if c.toNat < 32 then none
      else parseJStr fuel rest (c :: acc)

/-- Parse a JSON number (leading zeros rejected as in json.loads). -/
def parseJNum (cs : List Char) : Option (QV × List Char) :=
  let (neg, cs1) :=
    match cs with
    | '-' :: r => (true, r)
    | _ => (false, cs)
  let ds := cs1.takeWhile Char.isDigit
  let cs2 := cs1.dropWhile Char.isDigit
  if ds.isEmpty then none
  else if ds.length > 1 ∧ ds.headI = '0' then none
  else
    let intPart : QV := qv (digitsToNat ds : Int)
    let (fracPart, cs3) :=
      match cs2 with
      | '.' :: r =>
          let fd := r.takeWhile Char.isDigit
          let r1 := r.dropWhile Char.isDigit
          if fd.isEmpty then (none, cs2)
          else
            (some (⟨(digitsToNat fd : Int),
              ((10 : Nat) ^ fd.length : Nat)⟩ : QV), r1)
      | _ => (none, cs2)
    match cs2, fracPart with
    | '.' :: _, none => none
    | _, _ =>
      let (expPart, cs4) :=
        match cs3 with
        | e :: r =>
            if e = 'e' ∨ e = 'E' then
              let (esign, r1) :=
                match r with
                | '-' :: r2 => ((-1 : Int), r2)
                | '+' :: r2 => ((1 : Int), r2)
                | _ => ((1 : Int), r)
              let ed := r1.takeWhile Char.isDigit
              let r2 := r1.dropWhile Char.isDigit
              if ed.isEmpty then (none, cs3)
              else (some (esign * (digitsToNat ed : Int)), r2)
            else (none, cs3)
        | _ => (none, cs3)
      match cs3, expPart with
      | e :: _, none =>
          if e = 'e' ∨ e = 'E' then none
          else
            let base := qAdd intPart (fracPart.getD (qv 0))
            some ((if neg then qNeg base else base), cs3)
      | _, _ =>
          let base :=
            qMulPow10 (qAdd intPart (fracPart.getD (qv 0))) (expPart.getD 0)
          some ((if neg then qNeg base else base), cs4)

/-- The pending work of the recursive descent: one value, the members of
    an object after the opening brace, or the items of an array after the
    opening bracket. -/
inductive PTask where
  | val (cs : List Char)
  | members (cs : List Char) (acc : PyDict)
  | items (cs : List Char) (acc : List JVal)

/-- The recursive descent over JSON text, fuelled to make the recursion
    structural. Object members with duplicate keys keep the last value,
    like Python dicts. -/
def parseStep : Nat → PTask → Option (JVal × List Char)
  | 0, _ => none
  | fuel + 1, .val cs =>
      match cs with
      | [] => none
      | c :: rest =>
          if c = 't' then
            (expectLit ['r', 'u', 'e'] rest).map (fun r => (.bool true, r))
          else if c = 'f' then
            (expectLit ['a', 'l', 's', 'e'] rest).map (fun r => (.bool false, r))
          else if c = 'n' then
            (expectLit ['u', 'l', 'l'] rest).map (fun r => (.null, r))
          else if c = '"' then
            (parseJStr fuel rest []).map (fun (s, r) => (.str s, r))
          else if c = '\x7b' then
            match rest.dropWhile jWs with
            | '\x7d' :: r => some (.obj [], r)
            | other => parseStep fuel (.members other [])
          else if c = '[' then
            match rest.dropWhile jWs with
            | ']' :: r => some (.arr [], r)
            | other => parseStep fuel (.items other [])
          else
            (parseJNum cs).map (fun (q, r) => (.num q, r))
  | fuel + 1, .members cs acc =>
      match cs with
      | '"' :: rest =>
          match parseJStr fuel rest [] with
          | none => none
          | some (k, cs1) =>
              match (cs1.dropWhile jWs) with
              | ':' :: cs2 =>
                  match parseStep fuel (.val (cs2.dropWhile jWs)) with
                  | none => none
                  | some (v, cs3) =>
                      match (cs3.dropWhile jWs) with
                      | ',' :: cs4 =>
                          parseStep fuel
                            (.members (cs4.dropWhile jWs) (dictSet acc k v))
                      | '\x7d' :: cs4 => some (.obj (dictSet acc k v), cs4)
                      | _ => none
              | _ => none
      | _ => none
  | fuel + 1, .items cs acc =>
      match parseStep fuel (.val cs) with
      | none => none
      | some (v, cs1) =>
          match (cs1.dropWhile jWs) with
          | ',' :: cs2 => parseStep fuel (.items (cs2.dropWhile jWs) (acc ++ [v]))
          | ']' :: cs2 => some (.arr (acc ++ [v]), cs2)
          | _ => none

/-- Parse one JSON value. -/
def parseJVal (fuel : Nat) (cs : List Char) : Option (JVal × List Char) :=
  parseStep fuel (.val cs)

/-- Model of Python json.loads: parse one JSON document, requiring the
    whole input (modulo surrounding whitespace) to be consumed. -/
def jsonLoads (s : String) : Option JVal :=
  match parseJVal (2 * s.data.length + 4) (s.data.dropWhile jWs) with
  | some (v, rest) => if (rest.dropWhile jWs).isEmpty then some v else none
  | none => none

/-
  Embedding of backend/medical_processing/classification/classifier.py.
  The text-generation call is an oracle input (Except Unit String): ok is
  the raw response text, error is a call-level failure raised by _call_api.
  Prompt construction is not modelled: the prompts only influence what the
  external model answers, and the answer is the oracle input.
-/

/-- MEDICAL_CATEGORIES from config.py. -/
def medicalCategories : List String :=
  ["Cardiology", "Pulmonology", "Gastroenterology", "Nephrology",
   "Neurology", "Endocrinology", "Hematology", "Oncology", "Immunology",
   "Infectious diseases", "Diabetes", "Lipidology", "Nutrition",
   "Geriatrics", "Psychiatry", "Pediatrics", "General medicine",
   "Rheumatology", "Other"]

/-- Equality of a JSON value with a Python string (Python ==). -/
def jvalEqStr (v : JVal) (c : String) : Bool :=
  match v with
  | .str s => s = c
  | _ => false

/-- MedicalArticleClassifier._get_default_filtering_response. -/
def get_default_filtering_response : PyDict :=
  [("is_relevant", .bool false),
   ("reason", .str "API error or content filtering")]

/-- The default all-zero ranking breakdown used by the classifier. -/
def defaultRankingBreakdown : PyDict :=
  [("focus_points", .num (qv 0)),
   ("type_points", .num (qv 0)),
   ("prevalence_points", .num (qv 0)),
   ("hospitalization_points", .num (qv 0)),
   ("clinical_outcome_points", .num (qv 0)),
   ("impact_factor_points", .num (qv 0)),
   ("temporality_points", .num (qv 0)),
   ("prevention_penalty_points", .num (qv 0)),
   ("biologic_penalty_points", .num (qv 0)),
   ("screening_penalty_points", .num (qv 0)),
   ("scores_penalty_points", .num (qv 0)),
   ("subanalysis_penalty_points", .num (qv 0))]

/-- MedicalArticleClassifier._get_default_enhanced_response. -/
def get_default_enhanced_response : PyDict :=
  [("participants", .null),
   ("is_relevant", .bool false),
   ("reason", .str "API error or content filtering"),
   ("medical_category", .str "Other"),
   ("clinical_bottom_line", .str ""),
   ("tags", .arr []),
   ("ranking_score", .num (qv 0)),
   ("ranking_breakdown", .obj defaultRankingBreakdown),
   ("neurology_penalty_points", .num (qv 0)),
   ("prevention_penalty_points", .num (qv 0)),
   ("biologic_penalty_points", .num (qv 0)),
   ("screening_penalty_points", .num (qv 0)),
   ("scores_penalty_points", .num (qv 0)),
   ("subanalysis_penalty_points", .num (qv 0))]

/-- The cleaning and truncation-repair steps shared by
    parse_filtering_response and parse_enhanced_response: strip, drop a
    leading code fence (IndexError when the fenced response has no
    newline), drop a trailing fence, then repair truncated JSON by
    trimming to the last closing brace or appending missing braces. -/
def repairResponse (response : String) : Except PyErr String :=
  let r0 := pyStripList response.data
  match
    (if startsWithList "```".data r0 then
      match splitOnceAt '\n' r0 with
      | some (_, b) => Except.ok b
      | none => Except.error PyErr.indexError
    else Except.ok r0) with
  | .error e => .error e
  | .ok r1 =>
    let r2 := if endsWithList "```".data r1 then beforeLast '\n' r1 else r1
    let r3 :=
      if endsWithList "\x7d".data r2 then r2
      else
        let lastBrace := pyRfind '\x7d' r2
        if lastBrace > 0 then r2.take (lastBrace + 1).toNat
        else
          let missing : Int :=
            (countChar '\x7b' r2 : Int) - (countChar '\x7d' r2 : Int)
          if missing > 0 then r2 ++ List.replicate missing.toNat '\x7d'
          else r2
    .ok (String.mk r3)

/-- MedicalArticleClassifier.parse_filtering_response. A JSON decoding
    failure or a missing is_relevant field is absorbed into the default
    decision; a fence without a newline raises IndexError, a scalar
    top-level value raises TypeError from the membership test, and a
    non-dict container holding the field name raises AttributeError from
    setdefault -- none of these are caught by the except clause. -/
def parse_filtering_response (response : String) : Except PyErr PyDict :=
  match repairResponse response with
  | .error e => .error e
  | .ok r =>
    match jsonLoads r with
    | none => .ok get_default_filtering_response
    | some v =>
        match v with
        | .obj kvs =>
            if kvs.any (fun kv => kv.1 = "is_relevant") then
              .ok (dictSetdefault kvs "reason" .null)
            else .ok get_default_filtering_response
        | .arr xs =>
            if xs.any (fun x => jvalEqStr x "is_relevant") then
              .error .attributeError
            else .ok get_default_filtering_response
        | .str s =>
            if subOf "is_relevant".toList s.toList then
              .error .attributeError
            else .ok get_default_filtering_response
        | _ => .error .typeError

/-- MedicalArticleClassifier.parse_enhanced_response: same repair, then
    medical_category is required (collapsing unknown categories to Other)
    and the optional fields and ranking defaults are filled in. -/
def parse_enhanced_response (response : String) : Except PyErr PyDict :=
  match repairResponse response with
  | .error e => .error e
  | .ok r =>
    match jsonLoads r with
    | none => .ok get_default_enhanced_response
    | some v =>
        match v with
        | .obj kvs =>
            if kvs.any (fun kv => kv.1 = "medical_category") then
              let catv := dictGetD kvs "medical_category" .null
              let k1 :=
                if medicalCategories.any (fun c => jvalEqStr catv c) then kvs
                else dictSet kvs "medical_category" (.str "Other")
              let k2 := dictSetdefault k1 "participants" .null
              let k3 := dictSetdefault k2 "reason" .null
              let k4 := dictSetdefault k3 "clinical_bottom_line" (.str "")
              let k5 := dictSetdefault k4 "tags" (.arr [])
              let k6 := dictSetdefault k5 "ranking_score" (.num (qv 0))
              let k7 := dictSetdefault k6 "ranking_breakdown"
                (.obj defaultRankingBreakdown)
              .ok k7
            else .ok get_default_enhanced_response
        | .arr xs =>
            if xs.any (fun x => jvalEqStr x "medical_category") then
              .error .typeError
            else .ok get_default_enhanced_response
        | .str s =>
            if subOf "medical_category".toList s.toList then
              .error .typeError
            else .ok get_default_enhanced_response
        | _ => .error .typeError

/-- The article fields the classifier reads (always strings in the
    pipeline, produced by the extraction step). -/
structure ArticleData where
  title : String
  abstract : String
  mesh_terms : String
  publication_type : String
  journal : String

/-- MedicalArticleClassifier._calculate_rule_based_scores: -2 points when
    the journal name is exactly Neurology, case-insensitively. -/
def calculate_rule_based_scores (a : ArticleData) : Int :=
  if pyLower a.journal = "neurology" then -2 else 0

/-- MedicalArticleClassifier.filter_article: skip empty articles, call the
    model, parse; every exception of the call or the parse is absorbed by
    the except clause into the default decision. -/
def filter_article (a : ArticleData) (api : Except Unit String) : PyDict :=
  if a.title = "" ∧ a.abstract = "" then get_default_filtering_response
  else
    match api with
    | .error _ => get_default_filtering_response
    | .ok resp =>
        match parse_filtering_response resp with
        | .ok d => d
        | .error _ => get_default_filtering_response

/-- MedicalArticleClassifier.filter_article_inclusion_based: identical
    logic to filter_article, differing only in the prompt sent to the
    model (which is part of the oracle input here). -/
def filter_article_inclusion_based (a : ArticleData)
    (api : Except Unit String) : PyDict :=
  if a.title = "" ∧ a.abstract = "" then get_default_filtering_response
  else
    match api with
    | .error _ => get_default_filtering_response
    | .ok resp =>
        match parse_filtering_response resp with
        | .ok d => d
        | .error _ => get_default_filtering_response

/-- MedicalArticleClassifier.classify_relevant_article: skip empty
    articles, call the model, parse the enhanced response; every exception
    is absorbed into the default enhanced response. -/
def classify_relevant_article (a : ArticleData)
    (api : Except Unit String) : PyDict :=
  if a.title = "" ∧ a.abstract = "" then get_default_enhanced_response
  else
    match api with
    | .error _ => get_default_enhanced_response
    | .ok resp =>
        match parse_enhanced_response resp with
        | .ok d => d
        | .error _ => get_default_enhanced_response

/-- The merged dict of the relevant path: the filtering result written
    over a copy of the classification result, as result.update does. -/
def mergedResult (a : ArticleData) (filterApi classifyApi : Except Unit String) :
    PyDict :=
  dictUpdate (classify_relevant_article a classifyApi)
    (filter_article_inclusion_based a filterApi)

/-- The merged result with the five penalty fields and the rule-based
    neurology penalty written at top level, as
    classify_article_enhanced_inclusion_based does on the relevant path
    before recomputing the score. -/
def penaltyStack (a : ArticleData) (filterApi classifyApi : Except Unit String)
    (bkvs : PyDict) : PyDict :=
  dictSet
    (dictSet
      (dictSet
        (dictSet
          (dictSet
            (dictSet (mergedResult a filterApi classifyApi)
              "prevention_penalty_points"
              (dictGetD bkvs "prevention_penalty_points" (.num (qv 0))))
            "biologic_penalty_points"
            (dictGetD bkvs "biologic_penalty_points" (.num (qv 0))))
          "screening_penalty_points"
          (dictGetD bkvs "screening_penalty_points" (.num (qv 0))))
        "scores_penalty_points"
        (dictGetD bkvs "scores_penalty_points" (.num (qv 0))))
      "subanalysis_penalty_points"
      (dictGetD bkvs "subanalysis_penalty_points" (.num (qv 0))))
    "neurology_penalty_points" (.num (qv (calculate_rule_based_scores a)))

/-- MedicalArticleClassifier.classify_article_enhanced_inclusion_based:
    filter, then on the relevant path classify, merge the filtering result
    over the classification result, store the penalty components at top
    level, and recompute ranking_score as max(0, base plus penalties plus
    the rule-based neurology penalty). AttributeError (breakdown value not
    a dict) and TypeError (non-numeric component arithmetic)
    propagate. The additions are spelled as the same left-associated
    chain the source computes. -/
def classify_article_enhanced_inclusion_based (a : ArticleData)
    (filterApi classifyApi : Except Unit String) : Except PyErr PyDict :=
  if ¬ pyTruthy (dictGetD (filter_article_inclusion_based a filterApi)
      "is_relevant" (.bool false)) then
    .ok (dictUpdate get_default_enhanced_response
      (filter_article_inclusion_based a filterApi))
  else
    match dictGetD (mergedResult a filterApi classifyApi)
        "ranking_breakdown" (.obj []) with
    | .obj bkvs =>
        match pyAdd (dictGetD bkvs "focus_points" (.num (qv 0)))
            (dictGetD bkvs "type_points" (.num (qv 0))) with
        | .error e => .error e
        | .ok b1 =>
        match pyAdd b1 (dictGetD bkvs "prevalence_points" (.num (qv 0))) with
        | .error e => .error e
        | .ok b2 =>
        match pyAdd b2 (dictGetD bkvs "hospitalization_points" (.num (qv 0))) with
        | .error e => .error e
        | .ok b3 =>
        match pyAdd b3 (dictGetD bkvs "clinical_outcome_points" (.num (qv 0))) with
        | .error e => .error e
        | .ok b4 =>
        match pyAdd b4 (dictGetD bkvs "impact_factor_points" (.num (qv 0))) with
        | .error e => .error e
        | .ok b5 =>
        match pyAdd b5 (dictGetD bkvs "temporality_points" (.num (qv 0))) with
        | .error e => .error e
        | .ok base =>
        match pyAdd base (dictGetD bkvs "prevention_penalty_points" (.num (qv 0))) with
        | .error e => .error e
        | .ok t1 =>
        match pyAdd t1 (dictGetD bkvs "biologic_penalty_points" (.num (qv 0))) with
        | .error e => .error e
        | .ok t2 =>
        match pyAdd t2 (dictGetD bkvs "screening_penalty_points" (.num (qv 0))) with
        | .error e => .error e
        | .ok t3 =>
        match pyAdd t3 (dictGetD bkvs "scores_penalty_points" (.num (qv 0))) with
        | .error e => .error e
        | .ok t4 =>
        match pyAdd t4 (dictGetD bkvs "subanalysis_penalty_points" (.num (qv 0))) with
        | .error e => .error e
        | .ok t5 =>
        match pyAdd t5 (.num (qv (calculate_rule_based_scores a))) with
        | .error e => .error e
        | .ok total =>
        match pyMax0 total with
        | .error e => .error e
        | .ok score =>
            .ok (dictSet (penaltyStack a filterApi classifyApi bkvs)
              "ranking_score" score)
    | _ => .error .attributeError

/-
  Embedding of backend/medical_processing/database/operations.py
  (ArticleDatabase). The articles table has an autoincrement integer id
  and a UNIQUE pmid column; rows are kept in insertion order and the
  database stamps created_at on insert.
-/

/-- The column values insert_article writes for one article. -/
structure ArticleRecord where
  pmid : String
  title : String
  abstract : String
  journal : String
  authors : String
  author_affiliations : String
  publication_date : Option String
  doi : String
  url : String
  medical_category : Option String
  article_type : Option String
  keywords : String
  mesh_terms : String
  publication_type : String
  deriving Repr, DecidableEq

/-- One stored row of the articles table. -/
structure ArticleRow where
  id : Nat
  data : ArticleRecord
  created_at : Option String
  deriving Repr, DecidableEq

/-- The articles table: rows in insertion order plus the next
    autoincrement id. -/
structure ArticlesDb where
  rows : List ArticleRow
  nextId : Nat
  deriving Repr, DecidableEq

/-- ArticleDatabase.insert_article: return the existing internal id when
    the pmid is already stored, leaving the row untouched; otherwise
    insert a new row (created_at stamped with the current timestamp) and
    return its fresh id. -/
def insert_article (db : ArticlesDb) (a : ArticleRecord) (now : String) :
    Option Nat × ArticlesDb :=
  match db.rows.find? (fun r => r.data.pmid = a.pmid) with
  | some r => (some r.id, db)
  | none =>
      (some db.nextId,
       ⟨db.rows ++ [⟨db.nextId, a, some now⟩], db.nextId + 1⟩)

/-- Larger of two strings in SQLite TEXT (lexicographic) order. -/
def strMax (a b : String) : String :=
  if listLtChars a.data b.data then b else a

/-- ArticleDatabase.get_latest_created_at: MAX(created_at) over non-null
    values, with a falsy (empty) maximum reported as None. -/
def get_latest_created_at (db : ArticlesDb) : Option String :=
  match db.rows.filterMap (fun r => r.created_at) with
  | [] => none
  | v :: rest =>
      if rest.foldl strMax v = "" then none
      else some (rest.foldl strMax v)

/-
  Embedding of PubMedClient._extract_article_data
  (backend/medical_processing/data_collection/pubmed_client.py).
  A RawRecord carries the values the surrounding XML reads produce:
  title, journal, doi and publicationStatus are the Python locals (None
  is possible when an element is present with empty text); the author,
  date, keyword and MeSH subroutines are pure helpers whose results no
  claim depends on, so their joined results are carried directly.
-/

/-- The inputs _extract_article_data reads from one PubmedArticle. -/
structure RawRecord where
  pmid : String
  title : Option String
  abstractParts : List (Option String × String)
  publicationStatus : Option String
  journal : Option String
  authorsString : String
  affiliationsString : String
  pubDate : Option String
  doi : Option String
  keywords : String
  meshTerms : String
  pubTypes : List String
  deriving Repr

/-- The normalized article dict _extract_article_data returns. -/
structure ExtractedArticle where
  pmid : String
  title : Option String
  abstract : String
  journal : Option String
  authors : String
  author_affiliations : String
  publication_date : Option String
  doi : Option String
  url : String
  keywords : String
  mesh_terms : String
  publication_type : String
  deriving Repr, DecidableEq

/-- Flattening of the AbstractText sections: a truthy Label is kept
    inline, parts are joined with a double space, and a record with no
    abstract elements yields the empty string. -/
def flattenAbstract (parts : List (Option String × String)) : String :=
  if parts.isEmpty then ""
  else String.intercalate "  "
    (parts.map (fun p =>
      if p.1.getD "" ≠ "" then p.1.getD "" ++ ": " ++ p.2 else p.2))

/-- The title-term denylist of _extract_article_data. -/
def titleFilteredTerms : List String :=
  ["obesity", "gender", "sex", "rehabilitation", "cells", "stem cells",
   "progenitor cells", "epidemiology", "geography", "microbiome",
   "biomarker", "gene", "genetic", "technologies",
   "artificial intelligence", "behavioral", "hidradenitis suppurativa",
   "crispr", "mice", "chromosome", "pregnancy", "polygenic"]

/-- The non-research publication-type denylist. -/
def nonResearchTypes : List String :=
  ["editorial", "letter", "comment", "news", "biography",
   "historical article", "interview", "personal narrative", "portrait",
   "retraction", "retraction of publication",
   "corrected and republished article", "republished article",
   "duplicate publication", "published erratum", "video-audio media",
   "audiovisual", "webcast", "consensus development conference",
   "consensus development conference, nih", "congress",
   "conference proceedings", "meeting abstract"]

/-- The case-report publication-type markers. -/
def caseReportTypes : List String :=
  ["case report", "case study", "case series"]

/-- Substring membership of any term of a list in a string. -/
def anyTermIn (terms : List String) (s : String) : Bool :=
  terms.any (fun t => subOf t.data s.data)

/-- PubMedClient._extract_article_data: assemble the normalized article
    and apply the deterministic pre-filters in source order (title-term
    denylist, vaccine and dose co-occurrence, ahead-of-print without
    abstract, non-research publication types, non-case-report without
    abstract); none when the record is filtered out. -/
def extract_article_data (r : RawRecord) : Option ExtractedArticle :=
  let titleS := r.title.getD ""
  let tl := pyLower titleS
  let abstract := flattenAbstract r.abstractParts
  if titleS ≠ "" ∧ anyTermIn titleFilteredTerms tl then none
  else if titleS ≠ "" ∧ subOf "vaccine".data tl.data ∧
      (subOf "dose".data tl.data ∨ subOf "dosing".data tl.data) then none
  else if r.publicationStatus = some "aheadofprint" ∧
      String.mk (pyStripList abstract.data) = "" then none
  else
    let publication_type := String.intercalate "; " r.pubTypes
    let ptl := pyLower publication_type
    if publication_type ≠ "" ∧ anyTermIn nonResearchTypes ptl then none
    else if publication_type ≠ "" ∧ ¬ anyTermIn caseReportTypes ptl ∧
        String.mk (pyStripList abstract.data) = "" then none
    else
      some
        { pmid := r.pmid
          title := r.title
          abstract := abstract
          journal := r.journal
          authors := r.authorsString
          author_affiliations := r.affiliationsString
          publication_date := r.pubDate
          doi := r.doi
          url := "https://pubmed.ncbi.nlm.nih.gov/" ++ r.pmid ++ "/"
          keywords := r.keywords
          mesh_terms := r.meshTerms
          publication_type := publication_type }

/-
  Calendar model for the orchestrator date logic
  (Python datetime.date semantics, proleptic Gregorian).
-/

/-- A calendar date. -/
structure PyDate where
  year : Nat
  month : Nat
  day : Nat
  deriving Repr, DecidableEq

/-- Gregorian leap year. -/
def isLeapYear (y : Nat) : Bool :=
  (y % 4 = 0 ∧ y % 100 ≠ 0) ∨ y % 400 = 0

/-- Days in a month. -/
def daysInMonth (y m : Nat) : Nat :=
  if m = 2 then (if isLeapYear y then 29 else 28)
  else if m = 4 ∨ m = 6 ∨ m = 9 ∨ m = 11 then 30
  else 31

/-- The following calendar day. -/
def nextDay (d : PyDate) : PyDate :=
  if d.day < daysInMonth d.year d.month then ⟨d.year, d.month, d.day + 1⟩
  else if d.month < 12 then ⟨d.year, d.month + 1, 1⟩
  else ⟨d.year + 1, 1, 1⟩

/-- The previous calendar day (clamped at the epoch of the model). -/
def prevDay (d : PyDate) : PyDate :=
  if d.day > 1 then ⟨d.year, d.month, d.day - 1⟩
  else if d.month > 1 then
    ⟨d.year, d.month - 1, daysInMonth d.year (d.month - 1)⟩
  else if d.year > 0 then ⟨d.year - 1, 12, 31⟩
  else d

/-- Python date - timedelta(days=n). -/
def subDays (d : PyDate) (n : Nat) : PyDate :=
  prevDay^[n] d

/-- Zero-padded two-digit rendering. -/
def pad2 (n : Nat) : String :=
  if n < 10 then "0" ++ toString n else toString n

/-- Zero-padded four-digit rendering. -/
def pad4 (n : Nat) : String :=
  if n < 10 then "000" ++ toString n
  else if n < 100 then "00" ++ toString n
  else if n < 1000 then "0" ++ toString n
  else toString n

/-- Python strftime with format %Y/%m/%d. -/
def fmtSlash (d : PyDate) : String :=
  pad4 d.year ++ "/" ++ pad2 d.month ++ "/" ++ pad2 d.day

/-- Parse one token as strptime %Y-%m-%d: exactly four year digits, one
    or two month and day digits, and datetime.date validation. -/
def parseYMDToken (cs : List Char) : Option PyDate :=
  match splitAllOn '-' cs with
  | [ys, ms, ds] =>
      if ys.length = 4 ∧ ys.all Char.isDigit ∧
         1 ≤ ms.length ∧ ms.length ≤ 2 ∧ ms.all Char.isDigit ∧
         1 ≤ ds.length ∧ ds.length ≤ 2 ∧ ds.all Char.isDigit
      then
        let y := digitsToNat ys
        let m := digitsToNat ms
        let d := digitsToNat ds
        if 1 ≤ y ∧ 1 ≤ m ∧ m ≤ 12 ∧ 1 ≤ d ∧ d ≤ daysInMonth y m then
          some ⟨y, m, d⟩
        else none
      else none
  | _ => none

/-- The timestamp-parsing ladder of process_articles_from_last_update:
    after replacing T by a space, the three strptime formats reduce to
    parsing the first whitespace token as %Y-%m-%d; a non-empty
    whitespace-only string raises IndexError from split()[0], which the
    inner except clause does not catch. -/
def parse_created_at_date (s : String) : Except PyErr (Option PyDate) :=
  let cs := replaceChar 'T' ' ' s.data
  match pySplitWs (cs.length + 1) cs with
  | [] => .error .indexError
  | tok :: _ => .ok (parseYMDToken tok)

/-
  Embedding of backend/medical_processing/service.py
  (MedicalArticlesService). The three stages interact with the outside
  world, so each takes its outcome as an oracle: what the stage body
  would produce, or the message of the exception its try block caught.
  The rendering of a caught Python exception as str(e) is abstracted to
  a fixed string per exception kind.
-/

/-- Rendering of str(e) for a modelled Python exception. -/
def pyErrStr : PyErr → String
  | .indexError => "list index out of range"
  | .typeError => "TypeError"
  | .attributeError => "AttributeError"
  | .keyError => "KeyError"

/-- MedicalArticlesService.collect_articles_by_date_range: a structured
    dict with the collected articles and filtering stats, or the absorbed
    error. -/
def collect_articles_by_date_range
    (outcome : Except String (List PyDict × PyDict)) : PyDict :=
  match outcome with
  | .ok (arts, stats) =>
      [("articles", .arr (arts.map .obj)),
       ("filtering_stats", .obj stats),
       ("success", .bool true)]
  | .error e =>
      [("articles", .arr []),
       ("filtering_stats", .obj []),
       ("success", .bool false),
       ("error", .str e)]

/-- MedicalArticlesService.classify_articles. -/
def classify_articles (articles : List PyDict)
    (outcome : Except String (List PyDict)) : PyDict :=
  if articles.isEmpty then
    [("classified_articles", .arr []),
     ("success", .bool true),
     ("message", .str "No articles to classify")]
  else
    match outcome with
    | .ok cs =>
        [("classified_articles", .arr (cs.map .obj)),
         ("success", .bool true)]
    | .error e =>
        [("classified_articles", .arr []),
         ("success", .bool false),
         ("error", .str e)]

/-- MedicalArticlesService.store_articles. -/
def store_articles (articles : List PyDict)
    (outcome : Except String Nat) : PyDict :=
  if articles.isEmpty then
    [("stored_count", .num (qv 0)),
     ("success", .bool true),
     ("message", .str "No articles to store")]
  else
    match outcome with
    | .ok n =>
        [("stored_count", .num (qv n)),
         ("success", .bool true)]
    | .error e =>
        [("stored_count", .num (qv 0)),
         ("success", .bool false),
         ("error", .str e)]

/-- Python float(v) and comparison source for a score value: numbers and
    bools convert, anything else raises TypeError when compared. -/
def jvalToQ : JVal → Option QV
  | .num q => some q
  | .bool b => some (qv (if b then 1 else 0))
  | _ => none

/-- Round half to even at two decimals (Python round(x, 2), with float
    arithmetic modelled by exact rationals). -/
def roundHalfEven2 (q : QV) : QV :=
  let x := qMulPow10 q 2
  let f : ℤ := qFloor x
  let rn : ℤ := x.n - f * x.d
  let n : ℤ :=
    if 2 * rn < x.d then f
    else if 2 * rn > x.d then f + 1
    else if f % 2 = 0 then f else f + 1
  ⟨n, 100⟩

/-- The per-article accumulation loop of _calculate_article_statistics:
    positive scores collected, the count of scores of at least 8, and the
    per-category tally. A non-numeric non-null score raises TypeError
    from the comparison. Category keys are modelled as strings, the only
    shape this pipeline produces. -/
def statsLoop (articles : List PyDict)
    (acc : List QV × Nat × PyDict) :
    Except PyErr (List QV × Nat × PyDict) :=
  match articles with
  | [] => .ok acc
  | a :: rest => do
      let (scores, c8, bd) := acc
      let rs := dictGetD a "ranking_score" (.num (qv 0))
      let (scores1, c81) ←
        (match rs with
         | .null => Except.ok (scores, c8)
         | v =>
           match jvalToQ v with
           | none => .error .typeError
           | some q =>
               if qLtB (qv 0) q then
                 .ok (scores ++ [q], c8 + (if qLeB (qv 8) q then 1 else 0))
               else .ok (scores, c8))
      match dictGetD a "medical_category" (.str "Uncategorized") with
      | .str cat =>
          let prev := (jvalToQ (dictGetD bd cat (.num (qv 0)))).getD (qv 0)
          statsLoop rest
            (scores1, c81, dictSet bd cat (.num (qAdd prev (qv 1))))
      | _ => .error .typeError

/-- Sort key: the ranking score of an article dict as a rational. -/
def scoreKey (a : PyDict) : QV :=
  (jvalToQ (dictGetD a "ranking_score" (.num (qv 0)))).getD (qv 0)

/-- Stable descending insertion by score (Python sorted with
    reverse=True keeps the original order of equal keys). -/
def insertByScoreDesc (x : PyDict) : List PyDict → List PyDict
  | [] => [x]
  | h :: t =>
      if qLtB (scoreKey x) (scoreKey h) then h :: insertByScoreDesc x t
      else x :: h :: t

/-- The articles kept for the top list: score key present, not null, and
    positive. -/
def positiveScore (a : PyDict) : Bool :=
  match dictGet a "ranking_score" with
  | none => false
  | some .null => false
  | some v => qLtB (qv 0) ((jvalToQ v).getD (qv 0))

/-- Formatting of one top article for the summary: the title is sliced
    to 80 characters with an ellipsis for longer ones; a stored non-string
    title raises TypeError from the slice or the concatenation. -/
def formatTopArticle (a : PyDict) : Except PyErr PyDict :=
  match dictGet a "title" with
  | none =>
      .ok [("title", .str "Untitled"),
           ("score", dictGetD a "ranking_score" (.num (qv 0))),
           ("journal", dictGetD a "journal" (.str "Unknown"))]
  | some (.str s) =>
      .ok [("title", .str (String.mk (s.data.take 80) ++
              (if s.length > 80 then "..." else ""))),
           ("score", dictGetD a "ranking_score" (.num (qv 0))),
           ("journal", dictGetD a "journal" (.str "Unknown"))]
  | some _ => .error .typeError

/-- MedicalArticlesService._calculate_article_statistics. -/
def calculate_article_statistics (cs : List PyDict) :
    Except PyErr PyDict :=
  if cs.isEmpty then
    .ok [("avg_ranking_score", .num (qv 0)),
         ("articles_score_8_plus", .num (qv 0)),
         ("category_breakdown", .obj []),
         ("top_articles", .arr [])]
  else do
    let (scores, c8, bd) ← statsLoop cs ([], 0, [])
    let avg : QV :=
      if scores.isEmpty then qv 0
      else qDiv (scores.foldl qAdd (qv 0)) (qv scores.length)
    let top := ((cs.filter positiveScore).foldr insertByScoreDesc []).take 5
    let formatted ← top.mapM formatTopArticle
    .ok [("avg_ranking_score", .num (roundHalfEven2 avg)),
         ("articles_score_8_plus", .num (qv c8)),
         ("category_breakdown", .obj bd),
         ("top_articles", .arr (formatted.map .obj))]

/-- MedicalArticlesService.process_articles_by_date_range: collect, then
    classify, then compute statistics, then store; the first failing
    stage result is returned as-is and later stages are not run; an
    exception from the statistics step is absorbed by the outer except
    clause into a bare success-false dict. -/
def process_articles_by_date_range (start_date end_date : String)
    (collectOutcome : Except String (List PyDict × PyDict))
    (classifyOutcome : Except String (List PyDict))
    (storeOutcome : Except String Nat)
    (processingTime : QV) : PyDict :=
  let cr := collect_articles_by_date_range collectOutcome
  if ¬ pyTruthy (dictGetD cr "success" .null) then cr
  else
    let articles := match collectOutcome with
      | .ok (arts, _) => arts
      | .error _ => []
    if articles.isEmpty then
      [("success", .bool true),
       ("message", .str ("No new articles found for date range " ++
          start_date ++ " to " ++ end_date)),
       ("articles_collected", .num (qv 0)),
       ("articles_classified", .num (qv 0)),
       ("articles_stored", .num (qv 0)),
       ("processing_time_seconds", .num (qv 0))]
    else
      let clr := classify_articles articles classifyOutcome
      if ¬ pyTruthy (dictGetD clr "success" .null) then clr
      else
        let classified := match classifyOutcome with
          | .ok cs => cs
          | .error _ => []
        match calculate_article_statistics classified with
        | .error e =>
            [("success", .bool false), ("error", .str (pyErrStr e))]
        | .ok stats =>
            let sr := store_articles classified storeOutcome
            if ¬ pyTruthy (dictGetD sr "success" .null) then sr
            else
              [("success", .bool true),
               ("articles_collected", .num (qv articles.length)),
               ("articles_classified", .num (qv classified.length)),
               ("articles_stored", dictGetD sr "stored_count" (.num (qv 0))),
               ("filtering_stats", dictGetD cr "filtering_stats" .null),
               ("processing_time_seconds", .num processingTime),
               ("statistics", .obj stats)]

/-- The date-range derivation of process_articles_from_last_update: the
    7-day lookback when nothing is stored (or the stored maximum is
    falsy), otherwise the day after the stored timestamp up to today,
    with an unparseable timestamp falling back to the 7-day window. -/
def derive_update_date_range (latest : Option String) (today : PyDate) :
    Except PyErr (String × String) :=
  let sevenDay := (fmtSlash (subDays today 7), fmtSlash today)
  match latest with
  | none => .ok sevenDay
  | some s =>
      if s = "" then .ok sevenDay
      else
        match parse_created_at_date s with
        | .error e => .error e
        | .ok none => .ok sevenDay
        | .ok (some d) => .ok (fmtSlash (nextDay d), fmtSlash today)

/-- MedicalArticlesService.process_articles_from_last_update: read the
    latest stored created_at, derive the range, run the date-range
    pipeline, and attach the range to the result; an exception from the
    derivation is absorbed by the outer except clause. -/
def process_articles_from_last_update (db : ArticlesDb) (today : PyDate)
    (collectOutcome : Except String (List PyDict × PyDict))
    (classifyOutcome : Except String (List PyDict))
    (storeOutcome : Except String Nat)
    (processingTime : QV) : PyDict :=
  match derive_update_date_range (get_latest_created_at db) today with
  | .error e => [("success", .bool false), ("error", .str (pyErrStr e))]
  | .ok (sd, ed) =>
      let result := process_articles_by_date_range sd ed
        collectOutcome classifyOutcome storeOutcome processingTime
      dictSet (dictSet result "start_date" (.str sd)) "end_date" (.str ed)

/-
  Concrete scenario values and projection helpers used by the theorems.
-/

/-- Keys of a dict. -/
def dictKeys (d : PyDict) : List String :=
  d.map Prod.fst

/-- A dict has no duplicate keys (the invariant of every Python dict). -/
abbrev keysNodup (d : PyDict) : Prop :=
  (dictKeys d).Nodup

/-- The ranking score of a successful classification result. -/
def okScore (x : Except PyErr PyDict) : Option JVal :=
  match x with
  | .ok d => dictGet d "ranking_score"
  | .error _ => none

/-- Lookup of a field of a successful result. -/
def okField (x : Except PyErr PyDict) (k : String) : Option JVal :=
  match x with
  | .ok d => dictGet d k
  | .error _ => none

/-- A non-empty article used by the concrete scenarios. -/
def artPlain : ArticleData :=
  ⟨"Some title", "Some abstract", "Sepsis", "Randomized Controlled Trial", "J"⟩

/-- A filter response that is not relevant but smuggles its own negative
    ranking_score field. -/
def frNegScore : String :=
  "\x7b\"is_relevant\": false, \"ranking_score\": -3\x7d"

/-- The fenced example filter response of the spec. -/
def frFenced : String :=
  "```json\n\x7b\"is_relevant\": true, \"reason\": \"RCT\"\x7d\n```"

/-- A relevant filter response with only the two documented fields. -/
def frRelevant : String :=
  "\x7b\"is_relevant\": true, \"reason\": \"RCT on sepsis\"\x7d"

/-- A parsed-successfully filter response with no reason field. -/
def frNoReason : String :=
  "\x7b\"is_relevant\": true\x7d"

/-- A filter response carrying is_relevant as the string yes. -/
def frStringYes : String :=
  "\x7b\"is_relevant\": \"yes\", \"reason\": \"RCT\"\x7d"

/-- A classification response with a full numeric ranking breakdown. -/
def crFull : String :=
  "\x7b\"medical_category\": \"Infectious diseases\", \"ranking_breakdown\": \x7b\"focus_points\": 2, \"type_points\": 2, \"prevalence_points\": 2, \"hospitalization_points\": 1, \"clinical_outcome_points\": 1, \"impact_factor_points\": 1, \"temporality_points\": 1, \"prevention_penalty_points\": -1, \"biologic_penalty_points\": 0, \"screening_penalty_points\": 0, \"scores_penalty_points\": -9, \"subanalysis_penalty_points\": 0\x7d\x7d"

/-- A classification response whose breakdown holds a string component. -/
def crStringComponent : String :=
  "\x7b\"medical_category\": \"Cardiology\", \"ranking_breakdown\": \x7b\"focus_points\": \"2.0\"\x7d\x7d"

/-- A classification response with no ranking_breakdown field. -/
def crNoBreakdown : String :=
  "\x7b\"medical_category\": \"Cardiology\"\x7d"

/-- A raw record with empty title and abstract, a published status and an
    empty publication-type list. -/
def emptyRawRecord : RawRecord :=
  ⟨"123", some "", [], some "ppublish", some "J", "", "", none, some "",
   "", "", []⟩

/-- A JSON value that is a non-empty string. -/
def isNonemptyStr (v : JVal) : Prop :=
  ∃ s : String, v = .str s ∧ s ≠ ""

/-- A JSON value that is an integer score component. -/
def isIntComponent (v : JVal) : Prop :=
  ∃ n : ℤ, v = .num (qv n)

/-- The dict produced by classify_article_enhanced_inclusion_based on
    artPlain with the frRelevant filter response and the crFull
    classification response. -/
def c1ResultDict : PyDict :=
  [("medical_category", .str "Infectious diseases"),
   ("ranking_breakdown", .obj
     [("focus_points", .num (qv 2)),
      ("type_points", .num (qv 2)),
      ("prevalence_points", .num (qv 2)),
      ("hospitalization_points", .num (qv 1)),
      ("clinical_outcome_points", .num (qv 1)),
      ("impact_factor_points", .num (qv 1)),
      ("temporality_points", .num (qv 1)),
      ("prevention_penalty_points", .num (qv (-1))),
      ("biologic_penalty_points", .num (qv 0)),
      ("screening_penalty_points", .num (qv 0)),
      ("scores_penalty_points", .num (qv (-9))),
      ("subanalysis_penalty_points", .num (qv 0))]),
   ("participants", .null),
   ("reason", .str "RCT on sepsis"),
   ("clinical_bottom_line", .str ""),
   ("tags", .arr []),
   ("ranking_score", .num (qv 0)),
   ("is_relevant", .bool true),
   ("prevention_penalty_points", .num (qv (-1))),
   ("biologic_penalty_points", .num (qv 0)),
   ("screening_penalty_points", .num (qv 0)),
   ("scores_penalty_points", .num (qv (-9))),
   ("subanalysis_penalty_points", .num (qv 0)),
   ("neurology_penalty_points", .num (qv 0))]

/-- An article record for the persistence scenarios. -/
def articleRecA : ArticleRecord :=
  ⟨"40000001", "T", "A", "J", "Au", "Af", some "2025-01-02", "d", "u",
   none, none, "k", "m", "pt"⟩

/-- The same pmid with different field values. -/
def articleRecB : ArticleRecord :=
  ⟨"40000001", "T2", "A2", "J2", "Au2", "Af2", none, "d2", "u2",
   some "Cardiology", some "RCT", "k2", "m2", "pt2"⟩

/-
  Dictionary lemmas.
-/

theorem dictGet_dictSet_self (d : PyDict) (k : String) (v : JVal) :
    dictGet (dictSet d k v) k = some v := by
  induction d with
  | nil => simp [dictSet, dictGet]
  | cons a rest ih =>
      by_cases h : a.1 = k
      · simp [dictSet, dictGet, h]
      · simp [dictSet, dictGet, h, ih]

theorem dictGet_dictSet_ne (d : PyDict) (k1 k2 : String) (v : JVal)
    (h : k1 ≠ k2) : dictGet (dictSet d k1 v) k2 = dictGet d k2 := by
  induction d with
  | nil => simp [dictSet, dictGet, h, Ne.symm h]
  | cons a rest ih =>
      by_cases h1 : a.1 = k1
      · simp [dictSet, dictGet, h1, h, Ne.symm h]
      · by_cases h2 : a.1 = k2
        · simp [dictSet, dictGet, h1, h2, h, Ne.symm h]
        · simp [dictSet, dictGet, h1, h2, ih]

theorem dictGet_eq_none_iff (d : PyDict) (k : String) :
    dictGet d k = none ↔ k ∉ dictKeys d := by
  induction d with
  | nil => simp [dictGet, dictKeys]
  | cons a rest ih =>
      by_cases h : a.1 = k
      · simp [dictGet, dictKeys, h]
      · simp [dictGet, dictKeys, h, ih, Ne.symm h]

theorem dictGet_append (d1 d2 : PyDict) (k : String) :
    dictGet (d1 ++ d2) k =
      match dictGet d1 k with
      | some v => some v
      | none => dictGet d2 k := by
  induction d1 with
  | nil => simp [dictGet]
  | cons a rest ih =>
      by_cases h : a.1 = k
      · simp [dictGet, h]
      · simp [dictGet, h, ih]

theorem dictGet_dictSetdefault_self (d : PyDict) (k : String) (v : JVal) :
    dictGet (dictSetdefault d k v) k = some ((dictGet d k).getD v) := by
  unfold dictSetdefault
  cases h : dictGet d k with
  | some w => simp [h]
  | none => simp [dictGet_append, h, dictGet]

theorem dictGet_dictSetdefault_ne (d : PyDict) (k1 k2 : String) (v : JVal)
    (h : k1 ≠ k2) :
    dictGet (dictSetdefault d k1 v) k2 = dictGet d k2 := by
  unfold dictSetdefault
  cases h1 : dictGet d k1 with
  | some w => rfl
  | none =>
      rw [dictGet_append]
      cases h2 : dictGet d k2 with
      | some w => rfl
      | none => simp [dictGet, h]

theorem dictGet_dictUpdate_not_mem (d e : PyDict) (k : String) :
    k ∉ dictKeys e → dictGet (dictUpdate d e) k = dictGet d k := by
  induction e generalizing d with
  | nil => intro _; simp [dictUpdate]
  | cons a rest ih =>
      intro h
      simp only [dictKeys, List.map_cons, List.mem_cons, not_or] at h
      simp only [dictUpdate]
      rw [ih _ (by simpa [dictKeys] using h.2)]
      exact dictGet_dictSet_ne _ _ _ _ (Ne.symm h.1)

theorem dictGet_dictUpdate_of_nodup (d e : PyDict) (k : String) (v : JVal) :
    keysNodup e → dictGet e k = some v →
    dictGet (dictUpdate d e) k = some v := by
  induction e generalizing d with
  | nil => intro _ hv; simp [dictGet] at hv
  | cons a rest ih =>
      intro he hv
      simp only [keysNodup, dictKeys, List.map_cons, List.nodup_cons] at he
      simp only [dictUpdate]
      by_cases h : a.1 = k
      · simp only [dictGet, if_pos h] at hv
        cases hv
        rw [dictGet_dictUpdate_not_mem _ _ _ (h ▸ he.1)]
        subst h
        exact dictGet_dictSet_self _ _ _
      · simp only [dictGet, if_neg h] at hv
        exact ih _ he.2 hv

theorem dictKeys_dictSet (d : PyDict) (k : String) (v : JVal) :
    dictKeys (dictSet d k v) =
      if k ∈ dictKeys d then dictKeys d else dictKeys d ++ [k] := by
  induction d with
  | nil => simp [dictSet, dictKeys]
  | cons a rest ih =>
      by_cases h : a.1 = k
      · subst h
        simp [dictSet, dictKeys]
      · have hne : ¬ k = a.1 := fun hh => h hh.symm
        have hstep : dictKeys (dictSet (a :: rest) k v) =
            a.1 :: dictKeys (dictSet rest k v) := by
          simp [dictSet, h, dictKeys]
        rw [hstep, ih]
        by_cases hm : k ∈ dictKeys rest
        · simp only [dictKeys] at hm
          simp [dictKeys, hm, hne, List.mem_cons]
        · simp only [dictKeys] at hm
          simp [dictKeys, hm, hne, List.mem_cons]

theorem keysNodup_dictSet (d : PyDict) (k : String) (v : JVal)
    (h : keysNodup d) : keysNodup (dictSet d k v) := by
  unfold keysNodup at h ⊢
  rw [dictKeys_dictSet]
  by_cases hm : k ∈ dictKeys d
  · simpa [hm] using h
  · rw [if_neg hm, List.nodup_append]
    exact ⟨h, List.nodup_singleton _, fun a ha hb => by
      simp only [List.mem_singleton] at hb
      subst hb
      exact hm ha⟩

theorem keysNodup_dictSetdefault (d : PyDict) (k : String) (v : JVal)
    (h : keysNodup d) : keysNodup (dictSetdefault d k v) := by
  unfold dictSetdefault
  cases hg : dictGet d k with
  | some w => exact h
  | none =>
      have hk : k ∉ dictKeys d := (dictGet_eq_none_iff d k).mp hg
      unfold keysNodup at h ⊢
      unfold dictKeys at hk h ⊢
      rw [List.map_append, List.nodup_append]
      exact ⟨h, by simp, fun a ha hb => by
        simp only [List.map_cons, List.map_nil, List.mem_singleton] at hb
        subst hb
        exact hk ha⟩

theorem parseStep_shape : ∀ (fuel : Nat) (task : PTask) (v : JVal)
    (r : List Char), parseStep fuel task = some (v, r) →
    (match task with
     | .val _ => ∀ kvs, v = .obj kvs → keysNodup kvs
     | .members _ acc => keysNodup acc → ∃ kvs, v = .obj kvs ∧ keysNodup kvs
     | .items _ _ => ∃ xs, v = .arr xs) := by
  intro fuel
  induction fuel with
  | zero => intro task v r h; simp [parseStep] at h
  | succ n ih =>
      intro task v r h
      cases task with
      | val cs =>
          unfold parseStep at h
          split at h
          · simp at h
          · intro kvs hv
            subst hv
            split at h
            · simp only [Option.map_eq_some'] at h
              obtain ⟨a, _, ha⟩ := h
              simp at ha
            · split at h
              · simp only [Option.map_eq_some'] at h
                obtain ⟨a, _, ha⟩ := h
                simp at ha
              · split at h
                · simp only [Option.map_eq_some'] at h
                  obtain ⟨a, _, ha⟩ := h
                  simp at ha
                · split at h
                  · simp only [Option.map_eq_some'] at h
                    obtain ⟨⟨a1, a2⟩, _, ha⟩ := h
                    simp at ha
                  · split at h
                    · split at h
                      · simp only [Option.some.injEq, Prod.mk.injEq,
                          JVal.obj.injEq] at h
                        rw [← h.1]
                        simp [keysNodup, dictKeys]
                      · obtain ⟨ks, hks, hnd⟩ :=
                          (ih _ _ _ h) (by simp [keysNodup, dictKeys])
                        cases hks
                        exact hnd
                    · split at h
                      · split at h
                        · simp at h
                        · obtain ⟨xs, hxs⟩ := ih _ _ _ h
                          simp at hxs
                      · simp only [Option.map_eq_some'] at h
                        obtain ⟨a, _, ha⟩ := h
                        simp at ha
      | members cs acc =>
          intro hacc
          unfold parseStep at h
          split at h
          · split at h
            · simp at h
            · split at h
              · split at h
                · simp at h
                · split at h
                  · exact (ih _ _ _ h) (keysNodup_dictSet _ _ _ hacc)
                  · simp only [Option.some.injEq, Prod.mk.injEq] at h
                    exact ⟨_, h.1.symm, keysNodup_dictSet _ _ _ hacc⟩
                  · simp at h
              · simp at h
          · simp at h
      | items cs acc =>
          unfold parseStep at h
          split at h
          · simp at h
          · split at h
            · exact ih _ _ _ h
            · simp only [Option.some.injEq, Prod.mk.injEq] at h
              exact ⟨_, h.1.symm⟩
            · simp at h

theorem jsonLoads_obj_nodup (s : String) (kvs : PyDict)
    (h : jsonLoads s = some (.obj kvs)) : keysNodup kvs := by
  unfold jsonLoads parseJVal at h
  split at h
  · rename_i v rest heq
    split at h
    · simp only [Option.some.injEq] at h
      subst h
      have hps := parseStep_shape _ _ _ _ heq
      exact hps kvs rfl
    · simp at h
  · simp at h

/-- A successful jsonLoads of a repaired response, as an object: its
    binding list has no duplicate keys. -/
theorem jsonLoads_nodup_of_obj (s : String) (v : JVal) (kvs : PyDict)
    (h : jsonLoads s = some v) (hv : v = .obj kvs) : keysNodup kvs :=
  jsonLoads_obj_nodup s kvs (hv ▸ h)

theorem dictGet_isSome_of_any (d : PyDict) (k : String)
    (h : d.any (fun kv => kv.1 = k) = true) : (dictGet d k).isSome := by
  induction d with
  | nil => simp at h
  | cons a rest ih =>
      by_cases h1 : a.1 = k
      · simp [dictGet, h1]
      · simp only [List.any_cons, Bool.or_eq_true] at h
        rcases h with h | h
        · exact absurd (by simpa using h) h1
        · simpa [dictGet, h1] using ih h

/-- Every successfully returned filtering dict has duplicate-free keys
    and contains both the is_relevant and the reason bindings. -/
theorem pfr_ok_props (s : String) (d : PyDict)
    (h : parse_filtering_response s = .ok d) :
    keysNodup d ∧ (dictGet d "is_relevant").isSome ∧
      (dictGet d "reason").isSome := by
  unfold parse_filtering_response at h
  cases hrep : repairResponse s with
  | error e => simp only [hrep] at h; exact absurd h (by simp)
  | ok r =>
      simp only [hrep] at h
      cases hload : jsonLoads r with
      | none =>
          simp only [hload, Except.ok.injEq] at h
          subst h
          refine ⟨by decide, by decide, by decide⟩
      | some v =>
          simp only [hload] at h
          cases v with
          | obj kvs =>
              by_cases hany : kvs.any (fun kv => kv.1 = "is_relevant") = true
              · simp only [hany, if_true] at h
                simp only [Except.ok.injEq] at h
                subst h
                refine ⟨keysNodup_dictSetdefault _ _ _
                  (jsonLoads_obj_nodup r kvs hload), ?_, ?_⟩
                · rw [dictGet_dictSetdefault_ne _ _ _ _ (by decide)]
                  exact dictGet_isSome_of_any kvs _ hany
                · rw [dictGet_dictSetdefault_self]
                  simp
              · simp only [Bool.not_eq_true] at hany
                simp only [hany, Bool.false_eq_true, if_false,
                  Except.ok.injEq] at h
                subst h
                refine ⟨by decide, by decide, by decide⟩
          | arr xs =>
              by_cases hany : xs.any (fun x => jvalEqStr x "is_relevant") = true
              · simp only [hany, if_true] at h
                simp at h
              · simp only [Bool.not_eq_true] at hany
                simp only [hany, Bool.false_eq_true, if_false,
                  Except.ok.injEq] at h
                subst h
                refine ⟨by decide, by decide, by decide⟩
          | str s1 =>
              by_cases hsub : subOf "is_relevant".toList s1.toList = true
              · simp only [hsub, if_true] at h
                simp at h
              · simp only [Bool.not_eq_true] at hsub
                simp only [hsub, Bool.false_eq_true, if_false,
                  Except.ok.injEq] at h
                subst h
                refine ⟨by decide, by decide, by decide⟩
          | null => simp at h
          | bool b => simp at h
          | num q => simp at h

/-- The relevance-filter entry points always return a dict with
    duplicate-free keys containing both decision fields. -/
theorem filter_inclusion_props (a : ArticleData) (api : Except Unit String) :
    keysNodup (filter_article_inclusion_based a api) ∧
    (dictGet (filter_article_inclusion_based a api) "is_relevant").isSome ∧
    (dictGet (filter_article_inclusion_based a api) "reason").isSome := by
  unfold filter_article_inclusion_based
  by_cases hskip : a.title = "" ∧ a.abstract = ""
  · rw [if_pos hskip]
    exact ⟨by decide, by decide, by decide⟩
  · rw [if_neg hskip]
    cases api with
    | error e =>
        dsimp only
        exact ⟨by decide, by decide, by decide⟩
    | ok resp =>
        cases hp : parse_filtering_response resp with
        | ok d =>
            simp only [hp]
            exact pfr_ok_props resp d hp
        | error e =>
            simp only [hp]
            exact ⟨by decide, by decide, by decide⟩

/-
  Claim theorems.
-/

/-- C2: calling insert_article twice with the same pmid returns the same
    internal id both times, performs no change of the stored table on the
    second call (so no duplicate row is created and the stored fields are
    untouched), and a pmid absent before the calls is stored exactly
    once. -/
theorem claim_C2 (db : ArticlesDb) (a b : ArticleRecord) (t1 t2 : String)
    (hpmid : b.pmid = a.pmid) :
    (insert_article (insert_article db a t1).2 b t2).1 =
      (insert_article db a t1).1 ∧
    (insert_article (insert_article db a t1).2 b t2).2 =
      (insert_article db a t1).2 ∧
    ((db.rows.filter (fun r => r.data.pmid = a.pmid)).length = 0 →
      (((insert_article (insert_article db a t1).2 b t2).2.rows.filter
        (fun r => r.data.pmid = a.pmid)).length = 1)) := by
  have hpred : (fun r : ArticleRow => decide (r.data.pmid = b.pmid)) =
      (fun r : ArticleRow => decide (r.data.pmid = a.pmid)) := by
    funext r
    rw [hpmid]
  cases hf : db.rows.find? (fun r => decide (r.data.pmid = a.pmid)) with
  | some r =>
      have h1 : insert_article db a t1 = (some r.id, db) := by
        unfold insert_article
        rw [hf]
      have h2 : insert_article db b t2 = (some r.id, db) := by
        unfold insert_article
        rw [hpred, hf]
      rw [h1]
      dsimp only
      rw [h2]
      refine ⟨rfl, rfl, ?_⟩
      intro hzero
      exfalso
      have hrmem : r ∈ db.rows := List.mem_of_find?_eq_some hf
      have hp := List.find?_some hf
      have hin : r ∈ db.rows.filter (fun rr => decide (rr.data.pmid = a.pmid)) :=
        List.mem_filter.mpr ⟨hrmem, hp⟩
      rw [List.length_eq_zero] at hzero
      rw [hzero] at hin
      simp at hin
  | none =>
      have h1 : insert_article db a t1 =
          (some db.nextId,
           ⟨db.rows ++ [⟨db.nextId, a, some t1⟩], db.nextId + 1⟩) := by
        unfold insert_article
        rw [hf]
      have hf2 : (db.rows ++ [(⟨db.nextId, a, some t1⟩ : ArticleRow)]).find?
          (fun r => decide (r.data.pmid = b.pmid)) =
          some ⟨db.nextId, a, some t1⟩ := by
        rw [List.find?_append, hpred, hf]
        simp [List.find?, hpmid]
      have h2 : insert_article
          (⟨db.rows ++ [⟨db.nextId, a, some t1⟩], db.nextId + 1⟩ : ArticlesDb)
          b t2 =
          (some db.nextId,
           ⟨db.rows ++ [⟨db.nextId, a, some t1⟩], db.nextId + 1⟩) := by
        unfold insert_article
        rw [show (⟨db.rows ++ [⟨db.nextId, a, some t1⟩],
            db.nextId + 1⟩ : ArticlesDb).rows =
            db.rows ++ [(⟨db.nextId, a, some t1⟩ : ArticleRow)] from rfl]
        rw [hf2]
      rw [h1]
      dsimp only
      rw [h2]
      refine ⟨rfl, rfl, ?_⟩
      intro hzero
      rw [List.length_eq_zero] at hzero
      dsimp only
      rw [List.filter_append, List.length_append, hzero]
      simp [List.filter]

/-- C3: parse_filtering_response is not total: a response that opens a
    code fence and has no newline raises IndexError from
    split with separator newline and index 1, escaping the except clause
    that only absorbs JSONDecodeError, KeyError and ValueError; on the
    documented fenced example it does return the parsed decision. -/
theorem claim_C3 :
    parse_filtering_response "```" = .error .indexError ∧
    parse_filtering_response frFenced =
      .ok [("is_relevant", .bool true), ("reason", .str "RCT")] :=
  ⟨rfl, rfl⟩

/-- C5 counterexample: a filter response encoding is_relevant as the
    string yes is returned with the string value untouched, which is not
    the boolean true the claim promises. -/
theorem claim_C5_counterexample :
    parse_filtering_response frStringYes =
      .ok [("is_relevant", .str "yes"), ("reason", .str "RCT")] ∧
    JVal.str "yes" ≠ JVal.bool true :=
  ⟨rfl, by simp⟩

/-- C5 amended: parse_filtering_response performs no string-to-boolean
    coercion: the strings true, yes and 1 are returned verbatim as
    strings; the downstream relevance check applies Python truthiness, so
    any non-empty string (not a coerced boolean) counts as relevant. -/
theorem claim_C5_amended :
    (parse_filtering_response "\x7b\"is_relevant\": \"true\"\x7d" =
        .ok [("is_relevant", .str "true"), ("reason", .null)] ∧
      pyTruthy (.str "true") = true) ∧
    (parse_filtering_response "\x7b\"is_relevant\": \"yes\"\x7d" =
        .ok [("is_relevant", .str "yes"), ("reason", .null)] ∧
      pyTruthy (.str "yes") = true) ∧
    (parse_filtering_response "\x7b\"is_relevant\": \"1\"\x7d" =
        .ok [("is_relevant", .str "1"), ("reason", .null)] ∧
      pyTruthy (.str "1") = true) :=
  ⟨⟨rfl, rfl⟩, ⟨rfl, rfl⟩, ⟨rfl, rfl⟩⟩

/-- C9 counterexample: a raw record with empty title and abstract, a
    published (non-ahead-of-print) status and an empty publication-type
    list is not rejected: extraction returns an article. -/
theorem claim_C9_counterexample :
    emptyRawRecord.title.getD "" = "" ∧
    flattenAbstract emptyRawRecord.abstractParts = "" ∧
    (extract_article_data emptyRawRecord).isSome = true :=
  ⟨rfl, rfl, rfl⟩

/-- C9 amended: a record with empty title and abstract is rejected
    exactly when its status is ahead-of-print, or its joined
    publication-type string is non-empty and either hits the non-research
    denylist or carries no case-report marker; with a non-ahead-of-print
    status and an empty or case-report publication type the record is
    returned, not rejected. -/
theorem claim_C9_amended (r : RawRecord)
    (ht : r.title.getD "" = "")
    (ha : flattenAbstract r.abstractParts = "") :
    (extract_article_data r = none ↔
      r.publicationStatus = some "aheadofprint" ∨
      (String.intercalate "; " r.pubTypes ≠ "" ∧
        (anyTermIn nonResearchTypes
            (pyLower (String.intercalate "; " r.pubTypes)) = true ∨
         anyTermIn caseReportTypes
            (pyLower (String.intercalate "; " r.pubTypes)) = false))) := by
  unfold extract_article_data
  dsimp only
  rw [ht, ha]
  simp only [ne_eq, not_true_eq_false, false_and, if_false,
    show String.mk (pyStripList "".data) = "" from rfl]
  by_cases hstat : r.publicationStatus = some "aheadofprint"
  · simp [hstat]
  · simp only [hstat, and_true, if_false, false_or]
    by_cases hpt : String.intercalate "; " r.pubTypes = ""
    · simp [hpt]
    · simp only [hpt, not_false_eq_true, true_and]
      by_cases hdeny : anyTermIn nonResearchTypes
          (pyLower (String.intercalate "; " r.pubTypes)) = true
      · simp [hdeny]
      · simp only [Bool.not_eq_true] at hdeny
        simp only [hdeny, Bool.false_eq_true, false_or, and_true,
          if_false, false_and]
        by_cases hcase : anyTermIn caseReportTypes
            (pyLower (String.intercalate "; " r.pubTypes)) = true
        · simp [hcase]
        · simp only [Bool.not_eq_true] at hcase
          simp [hcase]

/-- C9 amended witness: a record with empty title and abstract whose
    publication type is Letter is rejected by the extraction filter. -/
theorem claim_C9_witness :
    extract_article_data { emptyRawRecord with pubTypes := ["Letter"] } =
      none := by
  rw [claim_C9_amended { emptyRawRecord with pubTypes := ["Letter"] } rfl rfl]
  right
  exact ⟨by decide, Or.inl rfl⟩

/-- C4 counterexample: a successfully parsed relevant decision with no
    reason field comes back with reason null, not a non-empty string. -/
theorem claim_C4_counterexample :
    filter_article_inclusion_based artPlain (.ok frNoReason) =
      [("is_relevant", .bool true), ("reason", .null)] ∧
    ¬ isNonemptyStr JVal.null :=
  ⟨rfl, by simp [isNonemptyStr]⟩

/-- C4 amended: every FilterDecision carries a reason binding; on the
    skip and call-failure paths it is the fixed non-empty default string,
    but a successful parse passes the model value through verbatim, so it
    can be null (or empty) even when is_relevant is true. -/
theorem claim_C4_amended (a : ArticleData) (api : Except Unit String) :
    (dictGet (filter_article_inclusion_based a api) "reason").isSome = true ∧
    (dictGet (filter_article a api) "reason").isSome = true ∧
    (api = .error () →
      dictGet (filter_article_inclusion_based a api) "reason" =
        some (.str "API error or content filtering") ∧
      "API error or content filtering" ≠ "") := by
  have hsame : filter_article a api = filter_article_inclusion_based a api := rfl
  obtain ⟨_, _, hreas⟩ := filter_inclusion_props a api
  refine ⟨hreas, by rw [hsame]; exact hreas, ?_⟩
  rintro rfl
  refine ⟨?_, by decide⟩
  unfold filter_article_inclusion_based
  by_cases hskip : a.title = "" ∧ a.abstract = ""
  · rw [if_pos hskip]
    rfl
  · rw [if_neg hskip]
    rfl

/-- C4 amended witness: the two entry points applied to a concrete
    article with a failed model call. -/
theorem claim_C4_witness :
    (dictGet (filter_article_inclusion_based artPlain (.error ()))
      "reason").isSome = true ∧
    dictGet (filter_article_inclusion_based artPlain (.error ())) "reason" =
      some (.str "API error or content filtering") := by
  obtain ⟨h1, _, h3⟩ := claim_C4_amended artPlain (.error ())
  exact ⟨h1, (h3 rfl).1⟩

/-- Addition of two modelled numbers. -/
theorem pyAdd_num_num (a b : QV) :
    pyAdd (.num a) (.num b) = .ok (.num (qAdd a b)) := rfl

/-- Whenever an addition whose right operand is a number succeeds, the
    result is a number. -/
theorem pyAdd_ok_num_right (v : JVal) (n : QV) (w : JVal)
    (h : pyAdd v (.num n) = .ok w) : ∃ q : QV, w = .num q := by
  cases v with
  | num a =>
      simp only [pyAdd, Except.ok.injEq] at h
      exact ⟨qAdd a n, h.symm⟩
  | bool b =>
      simp only [pyAdd, Except.ok.injEq] at h
      exact ⟨qAdd (qv (if b then 1 else 0)) n, h.symm⟩
  | null => simp [pyAdd] at h
  | str s => simp [pyAdd] at h
  | arr xs => simp [pyAdd] at h
  | obj kvs => simp [pyAdd] at h

/-- C6 counterexample: a breakdown component sent as the numeric string
    2.0 is kept as a string by parse_enhanced_response: no float-then-int
    conversion and no defaulting to 0 happens for present components. -/
theorem claim_C6_counterexample :
    okField (parse_enhanced_response crStringComponent) "ranking_breakdown" =
      some (.obj [("focus_points", .str "2.0")]) ∧
    ¬ isIntComponent (.str "2.0") :=
  ⟨rfl, by simp [isIntComponent]⟩

/-- C6 amended: parse_enhanced_response does not coerce score
    components: when the parsed object lacks the ranking_breakdown key
    the all-zero integer default breakdown is supplied, and when the key
    is present its parsed value is returned verbatim, whatever the types
    of its components. -/
theorem claim_C6_amended (s r0 : String) (kvs d : PyDict)
    (h1 : repairResponse s = .ok r0)
    (h2 : jsonLoads r0 = some (.obj kvs))
    (h3 : kvs.any (fun kv => kv.1 = "medical_category") = true)
    (h4 : parse_enhanced_response s = .ok d) :
    (dictGet kvs "ranking_breakdown" = none →
      dictGet d "ranking_breakdown" = some (.obj defaultRankingBreakdown)) ∧
    (∀ v, dictGet kvs "ranking_breakdown" = some v →
      dictGet d "ranking_breakdown" = some v) := by
  unfold parse_enhanced_response at h4
  simp only [h1, h2, h3, if_true, Except.ok.injEq] at h4
  subst h4
  have hchain : dictGet
      (dictSetdefault
        (dictSetdefault
          (dictSetdefault
            (dictSetdefault
              (dictSetdefault
                (if medicalCategories.any
                    (fun c => jvalEqStr (dictGetD kvs "medical_category" .null) c)
                  then kvs
                  else dictSet kvs "medical_category" (.str "Other"))
                "participants" .null)
              "reason" .null)
            "clinical_bottom_line" (.str ""))
          "tags" (.arr []))
        "ranking_score" (.num (qv 0)))
      "ranking_breakdown" = dictGet kvs "ranking_breakdown" := by
    rw [dictGet_dictSetdefault_ne _ _ _ _ (by decide)]
    rw [dictGet_dictSetdefault_ne _ _ _ _ (by decide)]
    rw [dictGet_dictSetdefault_ne _ _ _ _ (by decide)]
    rw [dictGet_dictSetdefault_ne _ _ _ _ (by decide)]
    rw [dictGet_dictSetdefault_ne _ _ _ _ (by decide)]
    split
    · rfl
    · exact dictGet_dictSet_ne _ _ _ _ (by decide)
  constructor
  · intro hnone
    rw [dictGet_dictSetdefault_self, hchain, hnone]
    rfl
  · intro v hv
    rw [dictGet_dictSetdefault_self, hchain, hv]
    rfl

/-- C6 amended witness: a response with no ranking_breakdown field gets
    the default all-zero breakdown. -/
theorem claim_C6_witness :
    dictGet
      [("medical_category", JVal.str "Cardiology"),
       ("participants", JVal.null),
       ("reason", JVal.null),
       ("clinical_bottom_line", JVal.str ""),
       ("tags", JVal.arr []),
       ("ranking_score", JVal.num (qv 0)),
       ("ranking_breakdown", JVal.obj defaultRankingBreakdown)]
      "ranking_breakdown" = some (.obj defaultRankingBreakdown) := by
  exact (claim_C6_amended crNoBreakdown crNoBreakdown
    [("medical_category", JVal.str "Cardiology")]
    [("medical_category", JVal.str "Cardiology"),
     ("participants", JVal.null),
     ("reason", JVal.null),
     ("clinical_bottom_line", JVal.str ""),
     ("tags", JVal.arr []),
     ("ranking_score", JVal.num (qv 0)),
     ("ranking_breakdown", JVal.obj defaultRankingBreakdown)]
    rfl rfl rfl rfl).1 rfl

/-- C2 witness: inserting the same pmid twice into an empty table. -/
theorem claim_C2_witness :
    (insert_article (insert_article ⟨[], 1⟩ articleRecA "t1").2
        articleRecB "t2").1 =
      (insert_article (⟨[], 1⟩ : ArticlesDb) articleRecA "t1").1 ∧
    (insert_article (insert_article ⟨[], 1⟩ articleRecA "t1").2
        articleRecB "t2").2 =
      (insert_article (⟨[], 1⟩ : ArticlesDb) articleRecA "t1").2 ∧
    ((insert_article (insert_article ⟨[], 1⟩ articleRecA "t1").2
        articleRecB "t2").2.rows.filter
      (fun r => r.data.pmid = articleRecA.pmid)).length = 1 := by
  have h := claim_C2 ⟨[], 1⟩ articleRecA articleRecB "t1" "t2" rfl
  exact ⟨h.1, h.2.1, h.2.2 rfl⟩

/-- The latest stored created_at value, when some, is never empty. -/
theorem get_latest_some_ne_empty (db : ArticlesDb) (s : String)
    (h : get_latest_created_at db = some s) : s ≠ "" := by
  unfold get_latest_created_at at h
  split at h
  · simp at h
  · split at h
    · simp at h
    · simp only [Option.some.injEq] at h
      subst h
      assumption

/-- C8: process_articles_from_last_update reports the range it ran over:
    with no stored timestamp it is the 7-day lookback ending today, and
    with a stored timestamp whose first token parses as a calendar date
    it starts the day after that date and ends today. -/
theorem claim_C8 (db : ArticlesDb) (today : PyDate)
    (co : Except String (List PyDict × PyDict))
    (clo : Except String (List PyDict))
    (so : Except String Nat) (pt : QV) :
    (get_latest_created_at db = none →
      dictGet (process_articles_from_last_update db today co clo so pt)
          "start_date" = some (.str (fmtSlash (subDays today 7))) ∧
      dictGet (process_articles_from_last_update db today co clo so pt)
          "end_date" = some (.str (fmtSlash today))) ∧
    (∀ (s : String) (d0 : PyDate), get_latest_created_at db = some s →
      parse_created_at_date s = .ok (some d0) →
      dictGet (process_articles_from_last_update db today co clo so pt)
          "start_date" = some (.str (fmtSlash (nextDay d0))) ∧
      dictGet (process_articles_from_last_update db today co clo so pt)
          "end_date" = some (.str (fmtSlash today))) := by
  constructor
  · intro hnone
    have hder : derive_update_date_range (get_latest_created_at db) today =
        .ok (fmtSlash (subDays today 7), fmtSlash today) := by
      rw [hnone]
      rfl
    unfold process_articles_from_last_update
    simp only [hder]
    constructor
    · rw [dictGet_dictSet_ne _ _ _ _ (by decide), dictGet_dictSet_self]
    · rw [dictGet_dictSet_self]
  · intro s d0 hsome hparse
    have hne := get_latest_some_ne_empty db s hsome
    have hder : derive_update_date_range (get_latest_created_at db) today =
        .ok (fmtSlash (nextDay d0), fmtSlash today) := by
      rw [hsome]
      unfold derive_update_date_range
      dsimp only
      rw [if_neg hne]
      simp only [hparse]
    unfold process_articles_from_last_update
    simp only [hder]
    constructor
    · rw [dictGet_dictSet_ne _ _ _ _ (by decide), dictGet_dictSet_self]
    · rw [dictGet_dictSet_self]

/-- C8 witness: an empty table resumes with the 7-day lookback and a
    table whose latest created_at is on October first resumes the next
    day, ending today in both cases. -/
theorem claim_C8_witness :
    dictGet (process_articles_from_last_update ⟨[], 1⟩ ⟨2025, 10, 12⟩
        (.error "x") (.ok []) (.ok 0) (qv 0)) "start_date" =
      some (.str "2025/10/05") ∧
    dictGet (process_articles_from_last_update
        ⟨[⟨1, articleRecA, some "2025-10-01 08:00:00"⟩], 2⟩ ⟨2025, 10, 12⟩
        (.error "x") (.ok []) (.ok 0) (qv 0)) "start_date" =
      some (.str "2025/10/02") := by
  constructor
  · have h := (claim_C8 ⟨[], 1⟩ ⟨2025, 10, 12⟩
      (.error "x") (.ok []) (.ok 0) (qv 0)).1 rfl
    rw [h.1]
    rfl
  · have h := (claim_C8 ⟨[⟨1, articleRecA, some "2025-10-01 08:00:00"⟩], 2⟩
      ⟨2025, 10, 12⟩ (.error "x") (.ok []) (.ok 0) (qv 0)).2
      "2025-10-01 08:00:00" ⟨2025, 10, 1⟩ rfl rfl
    rw [h.1]
    rfl

/-- C7 counterexample: when collection fails, the returned dict carries
    success false and the error string, but no stage identifier of any
    kind: its keys are exactly those of the collection result. -/
theorem claim_C7_counterexample :
    dictKeys (process_articles_by_date_range "2024/01/01" "2024/01/07"
        (.error "network down") (.ok []) (.ok 0) (qv 0)) =
      ["articles", "filtering_stats", "success", "error"] ∧
    dictGet (process_articles_by_date_range "2024/01/01" "2024/01/07"
        (.error "network down") (.ok []) (.ok 0) (qv 0)) "stage" = none ∧
    dictGet (process_articles_by_date_range "2024/01/01" "2024/01/07"
        (.error "network down") (.ok []) (.ok 0) (qv 0)) "success" =
      some (.bool false) :=
  ⟨rfl, rfl, rfl⟩

/-- C7 amended: a failing stage short-circuits the remaining stages (the
    result does not depend on the later oracles) and the returned dict is
    that stage's own result with success false and the error string, but
    it carries no stage key; the failing stage is only inferable from the
    other keys of the dict. -/
theorem claim_C7_amended :
    (∀ (sd ed e : String) (clo : Except String (List PyDict))
        (so : Except String Nat) (pt : QV),
      dictGet (process_articles_by_date_range sd ed (.error e) clo so pt)
          "success" = some (.bool false) ∧
      dictGet (process_articles_by_date_range sd ed (.error e) clo so pt)
          "error" = some (.str e) ∧
      dictGet (process_articles_by_date_range sd ed (.error e) clo so pt)
          "stage" = none ∧
      (∀ clo2 so2 pt2,
        process_articles_by_date_range sd ed (.error e) clo2 so2 pt2 =
        process_articles_by_date_range sd ed (.error e) clo so pt)) ∧
    (∀ (sd ed : String) (arts : List PyDict) (stats : PyDict) (e : String)
        (so : Except String Nat) (pt : QV), arts ≠ [] →
      dictGet (process_articles_by_date_range sd ed (.ok (arts, stats))
          (.error e) so pt) "success" = some (.bool false) ∧
      dictGet (process_articles_by_date_range sd ed (.ok (arts, stats))
          (.error e) so pt) "error" = some (.str e) ∧
      dictGet (process_articles_by_date_range sd ed (.ok (arts, stats))
          (.error e) so pt) "stage" = none ∧
      (∀ so2 pt2,
        process_articles_by_date_range sd ed (.ok (arts, stats)) (.error e)
          so2 pt2 =
        process_articles_by_date_range sd ed (.ok (arts, stats)) (.error e)
          so pt)) ∧
    (∀ (sd ed : String) (arts : List PyDict) (stats : PyDict)
        (cs : List PyDict) (st : PyDict) (e : String) (pt : QV),
      arts ≠ [] → cs ≠ [] →
      calculate_article_statistics cs = .ok st →
      dictGet (process_articles_by_date_range sd ed (.ok (arts, stats))
          (.ok cs) (.error e) pt) "success" = some (.bool false) ∧
      dictGet (process_articles_by_date_range sd ed (.ok (arts, stats))
          (.ok cs) (.error e) pt) "error" = some (.str e) ∧
      dictGet (process_articles_by_date_range sd ed (.ok (arts, stats))
          (.ok cs) (.error e) pt) "stage" = none) := by
  refine ⟨?_, ?_, ?_⟩
  · intro sd ed e clo so pt
    exact ⟨rfl, rfl, rfl, fun _ _ _ => rfl⟩
  · intro sd ed arts stats e so pt harts
    obtain ⟨x, xs, rfl⟩ : ∃ x xs, arts = x :: xs := by
      cases arts with
      | nil => exact absurd rfl harts
      | cons x xs => exact ⟨x, xs, rfl⟩
    exact ⟨rfl, rfl, rfl, fun _ _ => rfl⟩
  · intro sd ed arts stats cs st e pt harts hcs hstat
    obtain ⟨x, xs, rfl⟩ : ∃ x xs, arts = x :: xs := by
      cases arts with
      | nil => exact absurd rfl harts
      | cons x xs => exact ⟨x, xs, rfl⟩
    obtain ⟨y, ys, rfl⟩ : ∃ y ys, cs = y :: ys := by
      cases cs with
      | nil => exact absurd rfl hcs
      | cons y ys => exact ⟨y, ys, rfl⟩
    unfold process_articles_by_date_range
    dsimp only
    rw [hstat]
    exact ⟨rfl, rfl, rfl⟩

/-- C7 amended witness: concrete runs of the three failing stages. -/
theorem claim_C7_witness :
    dictGet (process_articles_by_date_range "a" "b"
        (.ok ([[("title", .str "T")]], [])) (.error "boom") (.ok 3) (qv 1))
        "error" = some (.str "boom") ∧
    dictGet (process_articles_by_date_range "a" "b"
        (.ok ([[("title", .str "T")]], []))
        (.ok [[("ranking_score", .num (qv 9))]]) (.error "disk full") (qv 1))
        "error" = some (.str "disk full") ∧
    dictGet (process_articles_by_date_range "a" "b"
        (.ok ([[("title", .str "T")]], []))
        (.ok [[("ranking_score", .num (qv 9))]]) (.error "disk full") (qv 1))
        "stage" = none := by
  refine ⟨?_, ?_, ?_⟩
  · exact ((claim_C7_amended.2.1 "a" "b" [[("title", .str "T")]] []
      "boom" (.ok 3) (qv 1) (by simp)).2.1)
  · exact ((claim_C7_amended.2.2 "a" "b" [[("title", .str "T")]] []
      [[("ranking_score", .num (qv 9))]] _ "disk full" (qv 1) (by simp) (by simp)
      rfl).2.1)
  · exact ((claim_C7_amended.2.2 "a" "b" [[("title", .str "T")]] []
      [[("ranking_score", .num (qv 9))]] _ "disk full" (qv 1) (by simp) (by simp)
      rfl).2.2)

/-- Python max(0, q) on a number. -/
theorem pyMax0_num (q : QV) : pyMax0 (.num q) = .ok (.num (qMax0 q)) := rfl

/-- Addition of integer-valued rationals. -/
theorem qAdd_qv (x y : Int) : qAdd (qv x) (qv y) = qv (x + y) := by
  simp [qAdd, qv]

/-- Python max(0, k) for an integer value. -/
theorem qMax0_qv (s : Int) : qMax0 (qv s) = qv (max 0 s) := by
  unfold qMax0 qLtB qv
  by_cases h : (0 : Int) < s
  · simp [h, max_eq_right (le_of_lt h)]
  · simp [h, max_eq_left (le_of_not_lt h)]

/-- The clamped score is non-negative whenever the input denominator is
    positive. -/
theorem qMax0_nonneg (q : QV) (hd : 0 < q.d) :
    0 ≤ (qMax0 q).n ∧ 0 < (qMax0 q).d := by
  unfold qMax0 qLtB qv
  by_cases h : (0 : Int) * q.d < q.n * 1
  · simp only [h, decide_eq_true_eq]
    simp only [if_pos trivial]
    exact ⟨by simpa using le_of_lt h, hd⟩
  · simp only [h, decide_eq_true_eq]
    simp only [if_neg not_false]
    exact ⟨le_refl 0, by norm_num⟩

/-- Inversion of the relevant path of
    classify_article_enhanced_inclusion_based: a successful return is the
    penalty stack with ranking_score recomputed as the Python
    max(0, total), and when every component of the merged breakdown is an
    integer the total is their sum plus the rule-based neurology
    penalty. -/
theorem classify_relevant_ok_inversion (a : ArticleData)
    (fApi cApi : Except Unit String) (d : PyDict)
    (htr : pyTruthy (dictGetD (filter_article_inclusion_based a fApi)
      "is_relevant" (.bool false)) = true)
    (h : classify_article_enhanced_inclusion_based a fApi cApi = .ok d) :
    ∃ (bkvs : PyDict) (q : QV),
      dictGetD (mergedResult a fApi cApi) "ranking_breakdown" (.obj []) =
        .obj bkvs ∧
      d = dictSet (penaltyStack a fApi cApi bkvs) "ranking_score"
        (.num (qMax0 q)) ∧
      (∀ (f t p hp c i tm q1 q2 q3 q4 q5 : Int),
        dictGetD bkvs "focus_points" (.num (qv 0)) = .num (qv f) →
        dictGetD bkvs "type_points" (.num (qv 0)) = .num (qv t) →
        dictGetD bkvs "prevalence_points" (.num (qv 0)) = .num (qv p) →
        dictGetD bkvs "hospitalization_points" (.num (qv 0)) = .num (qv hp) →
        dictGetD bkvs "clinical_outcome_points" (.num (qv 0)) = .num (qv c) →
        dictGetD bkvs "impact_factor_points" (.num (qv 0)) = .num (qv i) →
        dictGetD bkvs "temporality_points" (.num (qv 0)) = .num (qv tm) →
        dictGetD bkvs "prevention_penalty_points" (.num (qv 0)) = .num (qv q1) →
        dictGetD bkvs "biologic_penalty_points" (.num (qv 0)) = .num (qv q2) →
        dictGetD bkvs "screening_penalty_points" (.num (qv 0)) = .num (qv q3) →
        dictGetD bkvs "scores_penalty_points" (.num (qv 0)) = .num (qv q4) →
        dictGetD bkvs "subanalysis_penalty_points" (.num (qv 0)) = .num (qv q5) →
        q = qv (f + t + p + hp + c + i + tm + q1 + q2 + q3 + q4 + q5 +
          calculate_rule_based_scores a)) := by
  unfold classify_article_enhanced_inclusion_based at h
  rw [if_neg (not_not_intro htr)] at h
  cases hbk : dictGetD (mergedResult a fApi cApi) "ranking_breakdown"
      (.obj []) with
  | null => rw [hbk] at h; simp at h
  | bool b => rw [hbk] at h; simp at h
  | num q => rw [hbk] at h; simp at h
  | str s => rw [hbk] at h; simp at h
  | arr xs => rw [hbk] at h; simp at h
  | obj bkvs =>
      rw [hbk] at h
      dsimp only at h
      cases h1 : pyAdd (dictGetD bkvs "focus_points" (.num (qv 0)))
          (dictGetD bkvs "type_points" (.num (qv 0))) with
      | error e => rw [h1] at h; simp at h
      | ok b1 =>
      rw [h1] at h
      dsimp only at h
      cases h2 : pyAdd b1 (dictGetD bkvs "prevalence_points" (.num (qv 0))) with
      | error e => rw [h2] at h; simp at h
      | ok b2 =>
      rw [h2] at h
      dsimp only at h
      cases h3 : pyAdd b2
          (dictGetD bkvs "hospitalization_points" (.num (qv 0))) with
      | error e => rw [h3] at h; simp at h
      | ok b3 =>
      rw [h3] at h
      dsimp only at h
      cases h4 : pyAdd b3
          (dictGetD bkvs "clinical_outcome_points" (.num (qv 0))) with
      | error e => rw [h4] at h; simp at h
      | ok b4 =>
      rw [h4] at h
      dsimp only at h
      cases h5 : pyAdd b4
          (dictGetD bkvs "impact_factor_points" (.num (qv 0))) with
      | error e => rw [h5] at h; simp at h
      | ok b5 =>
      rw [h5] at h
      dsimp only at h
      cases h6 : pyAdd b5 (dictGetD bkvs "temporality_points" (.num (qv 0))) with
      | error e => rw [h6] at h; simp at h
      | ok base =>
      rw [h6] at h
      dsimp only at h
      cases h7 : pyAdd base
          (dictGetD bkvs "prevention_penalty_points" (.num (qv 0))) with
      | error e => rw [h7] at h; simp at h
      | ok t1 =>
      rw [h7] at h
      dsimp only at h
      cases h8 : pyAdd t1
          (dictGetD bkvs "biologic_penalty_points" (.num (qv 0))) with
      | error e => rw [h8] at h; simp at h
      | ok t2 =>
      rw [h8] at h
      dsimp only at h
      cases h9 : pyAdd t2
          (dictGetD bkvs "screening_penalty_points" (.num (qv 0))) with
      | error e => rw [h9] at h; simp at h
      | ok t3 =>
      rw [h9] at h
      dsimp only at h
      cases h10 : pyAdd t3
          (dictGetD bkvs "scores_penalty_points" (.num (qv 0))) with
      | error e => rw [h10] at h; simp at h
      | ok t4 =>
      rw [h10] at h
      dsimp only at h
      cases h11 : pyAdd t4
          (dictGetD bkvs "subanalysis_penalty_points" (.num (qv 0))) with
      | error e => rw [h11] at h; simp at h
      | ok t5 =>
      rw [h11] at h
      dsimp only at h
      cases h12 : pyAdd t5 (.num (qv (calculate_rule_based_scores a))) with
      | error e => rw [h12] at h; simp at h
      | ok total =>
      rw [h12] at h
      dsimp only at h
      obtain ⟨qt, rfl⟩ := pyAdd_ok_num_right _ _ _ h12
      rw [pyMax0_num] at h
      dsimp only at h
      simp only [Except.ok.injEq] at h
      subst h
      refine ⟨bkvs, qt, rfl, rfl, ?_⟩
      intro f t p hp c i tm q1 q2 q3 q4 q5 hf ht hpv hh hc hi htm hq1 hq2
        hq3 hq4 hq5
      rw [hf, ht, pyAdd_num_num, qAdd_qv] at h1
      have e1 : b1 = .num (qv (f + t)) := by
        simpa using h1.symm
      subst e1
      rw [hpv, pyAdd_num_num, qAdd_qv] at h2
      have e2 : b2 = .num (qv (f + t + p)) := by
        simpa using h2.symm
      subst e2
      rw [hh, pyAdd_num_num, qAdd_qv] at h3
      have e3 : b3 = .num (qv (f + t + p + hp)) := by
        simpa using h3.symm
      subst e3
      rw [hc, pyAdd_num_num, qAdd_qv] at h4
      have e4 : b4 = .num (qv (f + t + p + hp + c)) := by
        simpa using h4.symm
      subst e4
      rw [hi, pyAdd_num_num, qAdd_qv] at h5
      have e5 : b5 = .num (qv (f + t + p + hp + c + i)) := by
        simpa using h5.symm
      subst e5
      rw [htm, pyAdd_num_num, qAdd_qv] at h6
      have e6 : base = .num (qv (f + t + p + hp + c + i + tm)) := by
        simpa using h6.symm
      subst e6
      rw [hq1, pyAdd_num_num, qAdd_qv] at h7
      have e7 : t1 = .num (qv (f + t + p + hp + c + i + tm + q1)) := by
        simpa using h7.symm
      subst e7
      rw [hq2, pyAdd_num_num, qAdd_qv] at h8
      have e8 : t2 = .num (qv (f + t + p + hp + c + i + tm + q1 + q2)) := by
        simpa using h8.symm
      subst e8
      rw [hq3, pyAdd_num_num, qAdd_qv] at h9
      have e9 : t3 =
          .num (qv (f + t + p + hp + c + i + tm + q1 + q2 + q3)) := by
        simpa using h9.symm
      subst e9
      rw [hq4, pyAdd_num_num, qAdd_qv] at h10
      have e10 : t4 =
          .num (qv (f + t + p + hp + c + i + tm + q1 + q2 + q3 + q4)) := by
        simpa using h10.symm
      subst e10
      rw [hq5, pyAdd_num_num, qAdd_qv] at h11
      have e11 : t5 =
          .num (qv (f + t + p + hp + c + i + tm + q1 + q2 + q3 + q4 +
            q5)) := by
        simpa using h11.symm
      subst e11
      rw [pyAdd_num_num, qAdd_qv] at h12
      have e12 : JVal.num qt =
          .num (qv (f + t + p + hp + c + i + tm + q1 + q2 + q3 + q4 + q5 +
            calculate_rule_based_scores a)) := by
        simpa using h12.symm
      exact JVal.num.inj e12

/-- **C1** (counterexample): the returned ranking_score is not always
    non-negative. On the not-relevant path the filtering result is merged
    over the default enhanced response, so a filtering response that
    itself carries a ranking_score field overrides the default zero: with
    a parsed filtering response of is_relevant false and ranking_score -3,
    classify_article_enhanced_inclusion_based returns ranking_score -3,
    a negative value. -/
theorem claim_C1_counterexample :
    okScore (classify_article_enhanced_inclusion_based artPlain
      (.ok frNegScore) (.ok "")) = some (.num (qv (-3))) ∧
    (qv (-3)).n < 0 ∧ 0 < (qv (-3)).d :=
  ⟨rfl, by decide, by decide⟩

/-- **C1** (amended): on the relevant path the returned ranking_score is
    max(0, total) for the total recomputed from the merged breakdown, so
    it is non-negative, and when every breakdown component is an integer
    the total is the sum of the seven positive components, the five
    penalty components and the rule-based neurology penalty. On the
    not-relevant path the score is the default zero only when the
    filtering result carries no ranking_score field of its own. -/
theorem claim_C1_amended (a : ArticleData) (fApi cApi : Except Unit String)
    (d : PyDict)
    (h : classify_article_enhanced_inclusion_based a fApi cApi = .ok d) :
    (pyTruthy (dictGetD (filter_article_inclusion_based a fApi)
        "is_relevant" (.bool false)) = true →
      (∃ q : QV, dictGet d "ranking_score" = some (.num (qMax0 q)) ∧
        (0 < q.d → 0 ≤ (qMax0 q).n ∧ 0 < (qMax0 q).d)) ∧
      (∀ (bkvs : PyDict) (f t p hp c i tm q1 q2 q3 q4 q5 : Int),
        dictGetD (mergedResult a fApi cApi) "ranking_breakdown" (.obj []) =
          .obj bkvs →
        dictGetD bkvs "focus_points" (.num (qv 0)) = .num (qv f) →
        dictGetD bkvs "type_points" (.num (qv 0)) = .num (qv t) →
        dictGetD bkvs "prevalence_points" (.num (qv 0)) = .num (qv p) →
        dictGetD bkvs "hospitalization_points" (.num (qv 0)) = .num (qv hp) →
        dictGetD bkvs "clinical_outcome_points" (.num (qv 0)) = .num (qv c) →
        dictGetD bkvs "impact_factor_points" (.num (qv 0)) = .num (qv i) →
        dictGetD bkvs "temporality_points" (.num (qv 0)) = .num (qv tm) →
        dictGetD bkvs "prevention_penalty_points" (.num (qv 0)) =
          .num (qv q1) →
        dictGetD bkvs "biologic_penalty_points" (.num (qv 0)) =
          .num (qv q2) →
        dictGetD bkvs "screening_penalty_points" (.num (qv 0)) =
          .num (qv q3) →
        dictGetD bkvs "scores_penalty_points" (.num (qv 0)) =
          .num (qv q4) →
        dictGetD bkvs "subanalysis_penalty_points" (.num (qv 0)) =
          .num (qv q5) →
        dictGet d "ranking_score" = some (.num (qv (max 0
          (f + t + p + hp + c + i + tm + q1 + q2 + q3 + q4 + q5 +
            calculate_rule_based_scores a)))))) ∧
    (¬ pyTruthy (dictGetD (filter_article_inclusion_based a fApi)
        "is_relevant" (.bool false)) = true →
      dictGet (filter_article_inclusion_based a fApi) "ranking_score" =
        none →
      dictGet d "ranking_score" = some (.num (qv 0))) := by
  constructor
  · intro htr
    obtain ⟨bkvs0, q, hbk0, hd, hchar⟩ :=
      classify_relevant_ok_inversion a fApi cApi d htr h
    subst hd
    constructor
    · exact ⟨q, dictGet_dictSet_self _ _ _, fun hdp => qMax0_nonneg q hdp⟩
    · intro bkvs f t p hp c i tm q1 q2 q3 q4 q5 hbk hf ht hpv hh hc hi htm
        hq1 hq2 hq3 hq4 hq5
      obtain rfl : bkvs = bkvs0 := JVal.obj.inj (hbk.symm.trans hbk0)
      have hq := hchar f t p hp c i tm q1 q2 q3 q4 q5 hf ht hpv hh hc hi
        htm hq1 hq2 hq3 hq4 hq5
      rw [dictGet_dictSet_self, hq, qMax0_qv]
  · intro htr hnokey
    unfold classify_article_enhanced_inclusion_based at h
    rw [if_pos htr] at h
    simp only [Except.ok.injEq] at h
    subst h
    rw [dictGet_dictUpdate_not_mem _ _ _
      ((dictGet_eq_none_iff _ _).mp hnokey)]
    rfl

/-- **C1** (witness): the amended statement applied to the concrete
    relevant run whose breakdown sums to -2: the stored score is
    max(0, -2) = 0. -/
theorem claim_C1_witness :
    dictGet c1ResultDict "ranking_score" = some (.num (qv 0)) := by
  have h := claim_C1_amended artPlain (.ok frRelevant) (.ok crFull)
    c1ResultDict rfl
  have h2 := (h.1 rfl).2
    [("focus_points", .num (qv 2)),
     ("type_points", .num (qv 2)),
     ("prevalence_points", .num (qv 2)),
     ("hospitalization_points", .num (qv 1)),
     ("clinical_outcome_points", .num (qv 1)),
     ("impact_factor_points", .num (qv 1)),
     ("temporality_points", .num (qv 1)),
     ("prevention_penalty_points", .num (qv (-1))),
     ("biologic_penalty_points", .num (qv 0)),
     ("screening_penalty_points", .num (qv 0)),
     ("scores_penalty_points", .num (qv (-9))),
     ("subanalysis_penalty_points", .num (qv 0))]
    2 2 2 1 1 1 1 (-1) 0 0 (-9) 0
    rfl rfl rfl rfl rfl rfl rfl rfl rfl rfl rfl rfl rfl
  exact h2

/-- **C10**: the filtering result is merged into the output after the
    classification result, so every successful result of
    classify_article_enhanced_inclusion_based carries exactly the
    is_relevant and reason values of the relevance-filter step, on both
    the relevant and the not-relevant path; any such field from the
    classification response is overwritten. -/
theorem claim_C10 (a : ArticleData) (fApi cApi : Except Unit String)
    (d : PyDict)
    (h : classify_article_enhanced_inclusion_based a fApi cApi = .ok d) :
    dictGet d "is_relevant" =
      dictGet (filter_article_inclusion_based a fApi) "is_relevant" ∧
    dictGet d "reason" =
      dictGet (filter_article_inclusion_based a fApi) "reason" := by
  obtain ⟨hnd, hrel, hreas⟩ := filter_inclusion_props a fApi
  obtain ⟨vrel, hvrel⟩ := Option.isSome_iff_exists.mp hrel
  obtain ⟨vreas, hvreas⟩ := Option.isSome_iff_exists.mp hreas
  by_cases htr : pyTruthy (dictGetD (filter_article_inclusion_based a fApi)
      "is_relevant" (.bool false)) = true
  · obtain ⟨bkvs, q, hbk, hd, hchar⟩ :=
      classify_relevant_ok_inversion a fApi cApi d htr h
    subst hd
    constructor
    · rw [hvrel, dictGet_dictSet_ne _ _ _ _ (by decide)]
      unfold penaltyStack mergedResult
      rw [dictGet_dictSet_ne _ _ _ _ (by decide),
        dictGet_dictSet_ne _ _ _ _ (by decide),
        dictGet_dictSet_ne _ _ _ _ (by decide),
        dictGet_dictSet_ne _ _ _ _ (by decide),
        dictGet_dictSet_ne _ _ _ _ (by decide),
        dictGet_dictSet_ne _ _ _ _ (by decide)]
      exact dictGet_dictUpdate_of_nodup _ _ _ _ hnd hvrel
    · rw [hvreas, dictGet_dictSet_ne _ _ _ _ (by decide)]
      unfold penaltyStack mergedResult
      rw [dictGet_dictSet_ne _ _ _ _ (by decide),
        dictGet_dictSet_ne _ _ _ _ (by decide),
        dictGet_dictSet_ne _ _ _ _ (by decide),
        dictGet_dictSet_ne _ _ _ _ (by decide),
        dictGet_dictSet_ne _ _ _ _ (by decide),
        dictGet_dictSet_ne _ _ _ _ (by decide)]
      exact dictGet_dictUpdate_of_nodup _ _ _ _ hnd hvreas
  · unfold classify_article_enhanced_inclusion_based at h
    rw [if_pos htr] at h
    simp only [Except.ok.injEq] at h
    subst h
    constructor
    · rw [hvrel]
      exact dictGet_dictUpdate_of_nodup _ _ _ _ hnd hvrel
    · rw [hvreas]
      exact dictGet_dictUpdate_of_nodup _ _ _ _ hnd hvreas

/-- **C10** (witness): on the concrete relevant run the returned record
    carries the filter step's is_relevant and reason values. -/
theorem claim_C10_witness :
    dictGet c1ResultDict "is_relevant" =
      dictGet (filter_article_inclusion_based artPlain (.ok frRelevant))
        "is_relevant" ∧
    dictGet c1ResultDict "reason" =
      dictGet (filter_article_inclusion_based artPlain (.ok frRelevant))
        "reason" :=
  claim_C10 artPlain (.ok frRelevant) (.ok crFull) c1ResultDict rfl

end MedApp
